import Mathlib

/-!
Shallow embedding of the pixel-blur overlay engine: the overlay store with
bounded undo history (src/app/page.tsx), the pointer-driven interaction
state machine (CanvasStage), and the scene compositor (src/lib/canvas.ts).
Coordinates are modelled as exact rationals.
-/

namespace PixelBlur

/-- `clamp` from CanvasStage / canvas.ts: `Math.min(Math.max(value, min), max)`. -/
def clamp (value lo hi : ℚ) : ℚ := min (max value lo) hi

/-- A point in canvas logical coordinates. -/
structure Point where
  x : ℚ
  y : ℚ
  deriving DecidableEq, Repr

/-- Decoded bitmap dimensions (`naturalWidth`/`naturalHeight`). -/
structure ImgDim where
  naturalWidth : ℚ
  naturalHeight : ℚ
  deriving DecidableEq, Repr

/-- Tool mode (extended variant of `lib/types.ts`, including text). -/
inductive Mode where
  | blur
  | magnify
  | sticker
  | text
  deriving DecidableEq, Repr

/-- Lens clip geometry. -/
inductive LensShape where
  | circle
  | rounded
  deriving DecidableEq, Repr

/-- `Lens` from `lib/types.ts`. -/
structure Lens where
  id : String
  x : ℚ
  y : ℚ
  width : ℚ
  height : ℚ
  sourceX : ℚ
  sourceY : ℚ
  sourceImageX : ℚ
  sourceImageY : ℚ
  mode : Mode
  shape : LensShape
  blur : ℚ
  magnification : ℚ
  createdAt : ℚ
  deriving DecidableEq, Repr

/-- `Sticker` from `lib/types.ts`; the shared bitmap reference is modelled
by its natural dimensions. -/
structure Sticker where
  id : String
  x : ℚ
  y : ℚ
  width : ℚ
  height : ℚ
  image : ImgDim
  shape : LensShape
  deriving DecidableEq, Repr

/-- `TextOverlay` from the extended variant of `lib/types.ts`. -/
structure TextOverlay where
  id : String
  x : ℚ
  y : ℚ
  text : String
  color : String
  size : ℚ
  font : String
  deriving DecidableEq, Repr

/-- One undo history entry: value copies of the three collections. -/
structure Snapshot where
  lenses : List Lens
  stickers : List Sticker
  texts : List TextOverlay
  deriving DecidableEq, Repr

/-- Central app state of `page.tsx`: overlay collections, bounded undo
history, the re-entrancy guard, and the sticker source token. -/
structure AppState where
  lenses : List Lens
  stickers : List Sticker
  texts : List TextOverlay
  history : List Snapshot
  isUndoing : Bool
  stickerSrc : Option String
  deriving DecidableEq, Repr

/-- The three collections of a state, as a snapshot value. -/
def AppState.snap (s : AppState) : Snapshot :=
  { lenses := s.lenses, stickers := s.stickers, texts := s.texts }

/-- `pushHistory` (page.tsx): `trimmed = history.slice(-49); trimmed.push(snapshot)`.
`slice(-49)` keeps the last 49 entries (all of them when fewer). -/
def pushHistory (history : List Snapshot) (snapshot : Snapshot) : List Snapshot :=
  (history.drop (history.length - 49)) ++ [snapshot]

/-- History push as performed by every mutating handler: suppressed while an
undo is in flight. -/
def AppState.pushed (s : AppState) : AppState :=
  if s.isUndoing then s else { s with history := pushHistory s.history s.snap }

/-- `handleUndo` (page.tsx): no-op on empty history; otherwise pop the last
snapshot, restore all three collections, and raise the re-entrancy guard. -/
def handleUndo (s : AppState) : AppState :=
  match s.history.getLast? with
  | none => s
  | some snapshot =>
      { s with
        lenses := snapshot.lenses
        stickers := snapshot.stickers
        texts := snapshot.texts
        history := s.history.dropLast
        isUndoing := true }

/-- `handleLensAdd` (page.tsx). -/
def handleLensAdd (s : AppState) (lens : Lens) : AppState :=
  let s := s.pushed
  { s with lenses := s.lenses ++ [lens] }

/-- `handleStickerAdd` (page.tsx). -/
def handleStickerAdd (s : AppState) (sticker : Sticker) : AppState :=
  let s := s.pushed
  { s with stickers := s.stickers ++ [sticker] }

/-- `handleTextAdd` (page.tsx): silently rejects empty trimmed content. -/
def handleTextAdd (s : AppState) (t : TextOverlay) : AppState :=
  if t.text.trim = "" then s
  else
    let s := s.pushed
    { s with texts := s.texts ++ [t] }

/-- `handleReset` (page.tsx): push a snapshot, then clear all collections
(the sticker source is kept). -/
def handleReset (s : AppState) : AppState :=
  let s := s.pushed
  { s with lenses := [], stickers := [], texts := [] }

/-- `handleStickerPicked` (page.tsx, load-completion body): record the new
sticker source and clear the undo history. -/
def handleStickerPicked (s : AppState) (result : String) : AppState :=
  { s with stickerSrc := some result, history := [] }

/-- `handleFilePicked` (page.tsx, load-completion body): new base image
clears all collections and the history. -/
def handleFilePicked (s : AppState) : AppState :=
  { s with lenses := [], stickers := [], texts := [], history := [] }

/-- `onLensUpdate` (page.tsx): push a snapshot of the current collections,
then merge the patch into every lens with the matching id. -/
def onLensUpdate (s : AppState) (id : String) (patch : Lens → Lens) : AppState :=
  let s := s.pushed
  { s with lenses := s.lenses.map (fun l => if l.id = id then patch l else l) }

/-- `onStickerUpdate` (page.tsx). -/
def onStickerUpdate (s : AppState) (id : String) (patch : Sticker → Sticker) : AppState :=
  let s := s.pushed
  { s with stickers := s.stickers.map (fun t => if t.id = id then patch t else t) }

/-- `onTextUpdate` (page.tsx). -/
def onTextUpdate (s : AppState) (id : String) (patch : TextOverlay → TextOverlay) : AppState :=
  let s := s.pushed
  { s with texts := s.texts.map (fun t => if t.id = id then patch t else t) }

/-- A mutating page-level action, as enumerated in the undo round-trip claim. -/
inductive PageAction where
  | lensAdd (lens : Lens)
  | stickerAdd (sticker : Sticker)
  | textAdd (t : TextOverlay)
  | lensUpdate (id : String) (patch : Lens → Lens)
  | stickerUpdate (id : String) (patch : Sticker → Sticker)
  | textUpdate (id : String) (patch : TextOverlay → TextOverlay)
  | reset

/-- Dispatch a mutating action to its page.tsx handler. -/
def applyAction (s : AppState) : PageAction → AppState
  | .lensAdd lens => handleLensAdd s lens
  | .stickerAdd sticker => handleStickerAdd s sticker
  | .textAdd t => handleTextAdd s t
  | .lensUpdate id patch => onLensUpdate s id patch
  | .stickerUpdate id patch => onStickerUpdate s id patch
  | .textUpdate id patch => onTextUpdate s id patch
  | .reset => handleReset s

/-- An action is an effective mutation when its guard passes: for text
addition the trimmed content must be non-empty (else it is the documented
silent no-op, which pushes nothing). -/
def PageAction.effective : PageAction → Prop
  | .textAdd t => t.text.trim ≠ ""
  | _ => True

instance : DecidablePred PageAction.effective := by
  intro a
  cases a <;> simp [PageAction.effective] <;> infer_instance

/-! ## Geometry, hit-testing and text measurement (CanvasStage helpers) -/

/-- Background selection of the control panel. -/
inductive BackgroundMode where
  | black
  | white
  | image
  deriving DecidableEq, Repr

/-- Configuration surface consumed by the stage (plain values). -/
structure Config where
  mode : Mode
  lensShape : LensShape
  lensSize : ℚ
  blurAmount : ℚ
  magnification : ℚ
  textValue : String
  textColor : String
  textSize : ℚ
  textFont : String
  backgroundMode : BackgroundMode
  deriving DecidableEq, Repr

/-- Stage environment: logical canvas size, the two loaded bitmaps, and the
text-measurement capability (`measureText(text, font).width`). -/
structure Env where
  width : ℚ
  height : ℚ
  image : Option ImgDim
  stickerImage : Option ImgDim
  measure : String → String → ℚ

/-- `effectiveImage = backgroundMode === "image" ? image : null`. -/
def effectiveImage (env : Env) (cfg : Config) : Option ImgDim :=
  if cfg.backgroundMode = BackgroundMode.image then env.image else none

/-- Fit-to-container metrics (`imageMetrics` memo / `renderScene`). -/
structure DrawMetrics where
  scale : ℚ
  offsetX : ℚ
  offsetY : ℚ
  drawWidth : ℚ
  drawHeight : ℚ
  deriving DecidableEq, Repr

/-- Uniform fit scale and centering offsets for a bitmap on the canvas. -/
def computeDraw (img : ImgDim) (width height : ℚ) : DrawMetrics :=
  let scale := min (width / img.naturalWidth) (height / img.naturalHeight)
  let drawWidth := img.naturalWidth * scale
  let drawHeight := img.naturalHeight * scale
  { scale := scale
    offsetX := (width - drawWidth) / 2
    offsetY := (height - drawHeight) / 2
    drawWidth := drawWidth
    drawHeight := drawHeight }

/-- `toImagePoint`: display-space point to image-pixel space, clamped to the
bitmap; identity when no image metrics exist. -/
def toImagePoint (env : Env) (cfg : Config) (point : Point) : Point :=
  match effectiveImage env cfg with
  | none => point
  | some img =>
      let m := computeDraw img env.width env.height
      { x := clamp ((point.x - m.offsetX) / m.scale) 0 img.naturalWidth
        y := clamp ((point.y - m.offsetY) / m.scale) 0 img.naturalHeight }

/-- The DOM-free fallback of `measureText`: `Math.max(30, text.length * 12 * 0.6)`. -/
def fallbackMeasure (text : String) (_font : String) : ℚ :=
  max 30 ((text.length : ℚ) * 12 * (3 / 5))

/-- Splitting on `/\r?\n/`: a break at each `\r\n` or lone `\n`; a lone
`\r` does not break a line. -/
def splitLinesAux : List Char → List Char → List (List Char)
  | [], acc => [acc.reverse]
  | '\x0d' :: '\n' :: rest, acc => acc.reverse :: splitLinesAux rest []
  | '\n' :: rest, acc => acc.reverse :: splitLinesAux rest []
  | c :: rest, acc => splitLinesAux rest (c :: acc)

/-- Split on `/\r?\n/` (`text.split(/\r?\n/)`). -/
def splitLines (s : String) : List String :=
  (splitLinesAux s.data []).map fun cs => String.mk cs

/-- The CSS font string built by `estimateTextBounds`. -/
def fontString (size : ℚ) (font : String) : String :=
  toString size ++ "px " ++
    (if font.contains ' ' then "\x27" ++ font ++ "\x27" else font) ++
    ", Terminus, monospace"

/-- Result of `estimateTextBounds`. -/
structure TextBounds where
  width : ℚ
  height : ℚ
  lineHeight : ℚ
  lines : List String
  deriving DecidableEq, Repr

/-- `estimateTextBounds(text, size, font)`: per-line measured widths (min 30),
line height `size * 1.2`, block height `max(lineHeight, lines * lineHeight)`. -/
def estimateTextBounds (measure : String → String → ℚ) (text : String)
    (size : ℚ) (font : String) : TextBounds :=
  let fs := fontString size font
  let lines := splitLines (if text = "" then "Text" else text)
  let lineHeight := size * (6 / 5)
  let widths := lines.map (fun line => measure (if line = "" then " " else line) fs)
  { width := widths.foldl max 30
    height := max lineHeight ((lines.length : ℚ) * lineHeight)
    lineHeight := lineHeight
    lines := lines }

/-- `getTextBounds`: derived bounding box of a text overlay. -/
def getTextBounds (measure : String → String → ℚ) (t : TextOverlay) : TextBounds :=
  estimateTextBounds measure t.text t.size t.font

/-- `isWithinLens`: fast rectangle rejection, then rounded-rect containment
or the normalized ellipse inequality for circles. Shared by lenses and
stickers. -/
def isWithinLens (x y width height : ℚ) (shape : LensShape) (point : Point) : Bool :=
  if ¬ (x ≤ point.x ∧ point.x ≤ x + width ∧ y ≤ point.y ∧ point.y ≤ y + height) then
    false
  else if shape = LensShape.rounded then
    true
  else
    let rx := width / 2
    let ry := height / 2
    let cx := x + rx
    let cy := y + ry
    decide ((point.x - cx) ^ 2 / rx ^ 2 + (point.y - cy) ^ 2 / ry ^ 2 ≤ 1)

/-- `isWithinText`: containment in the derived text bounding box. -/
def isWithinText (measure : String → String → ℚ) (t : TextOverlay) (point : Point) : Bool :=
  let bounds := getTextBounds measure t
  decide (t.x ≤ point.x ∧ point.x ≤ t.x + bounds.width ∧
          t.y ≤ point.y ∧ point.y ≤ t.y + bounds.height)

/-! ## Interaction state machine (CanvasStage) -/

/-- Captured pointer offset for a drag gesture. -/
structure Offset where
  dx : ℚ
  dy : ℚ
  deriving DecidableEq, Repr

/-- Start geometry captured at resize begin. -/
structure Rect where
  x : ℚ
  y : ℚ
  width : ℚ
  height : ℚ
  deriving DecidableEq, Repr

/-- Resize transient state: target id, start geometry, anchor point. -/
structure ResizeStart where
  id : String
  start : Rect
  startPoint : Point
  deriving DecidableEq, Repr

/-- The nullable transient fields of CanvasStage. -/
structure Stage where
  dragStart : Option Point
  dragCurrent : Option Point
  activeLensId : Option String
  dragOffset : Option Offset
  resizeState : Option ResizeStart
  activeStickerId : Option String
  stickerDragOffset : Option Offset
  stickerResizeState : Option ResizeStart
  activeTextId : Option String
  editingText : String
  textDragOffset : Option Offset
  textResizeState : Option ResizeStart
  deriving DecidableEq, Repr

/-- The idle stage: every transient field cleared. -/
def Stage.idle : Stage :=
  { dragStart := none, dragCurrent := none, activeLensId := none,
    dragOffset := none, resizeState := none, activeStickerId := none,
    stickerDragOffset := none, stickerResizeState := none,
    activeTextId := none, editingText := "", textDragOffset := none,
    textResizeState := none }

/-- Combined interactive state: page-level store, stage transients, config. -/
structure World where
  app : AppState
  stage : Stage
  config : Config
  deriving DecidableEq, Repr

/-- `handleTextSelect` (page.tsx): mirror the selected text's style into the
control values. -/
def handleTextSelect (cfg : Config) (t : TextOverlay) : Config :=
  { cfg with textValue := t.text, textColor := t.color, textSize := t.size }

/-- Clearing the text selection (empty-space click / Escape). -/
def clearTextSelection (st : Stage) : Stage :=
  { st with activeTextId := none, editingText := "", textDragOffset := none }

/-- `handlePointerDown`: hit-test text, then sticker, then lens, each
top-most first; primary button starts a drag, secondary a resize; otherwise
start a preview drag (or bail out / clear the selection). -/
def handlePointerDown (env : Env) (w : World) (button : Nat) (point : Point) : World :=
  let textHit := w.app.texts.reverse.find? (fun t => isWithinText env.measure t point)
  let stickerHit := w.app.stickers.reverse.find?
    (fun s => isWithinLens s.x s.y s.width s.height s.shape point)
  let hit := w.app.lenses.reverse.find?
    (fun l => isWithinLens l.x l.y l.width l.height l.shape point)
  if h1 : textHit.isSome ∧ button = 0 then
    let t := textHit.get h1.1
    { w with
      stage := { w.stage with
        activeTextId := some t.id
        textDragOffset := some { dx := point.x - t.x, dy := point.y - t.y }
        editingText := t.text }
      config := handleTextSelect w.config t }
  else if h2 : textHit.isSome ∧ button = 2 then
    let t := textHit.get h2.1
    let bounds := getTextBounds env.measure t
    { w with
      stage := { w.stage with
        activeTextId := some t.id
        editingText := t.text
        textResizeState := some
          { id := t.id
            start := { x := t.x, y := t.y, width := bounds.width, height := bounds.height }
            startPoint := point } }
      config := handleTextSelect w.config t }
  else if h3 : stickerHit.isSome ∧ button = 0 then
    let s := stickerHit.get h3.1
    { w with stage := { w.stage with
        activeStickerId := some s.id
        stickerDragOffset := some { dx := point.x - s.x, dy := point.y - s.y } } }
  else if h4 : stickerHit.isSome ∧ button = 2 then
    let s := stickerHit.get h4.1
    { w with stage := { w.stage with
        stickerResizeState := some
          { id := s.id
            start := { x := s.x, y := s.y, width := s.width, height := s.height }
            startPoint := point } } }
  else if h5 : hit.isSome ∧ button = 0 then
    let l := hit.get h5.1
    { w with stage := { w.stage with
        activeLensId := some l.id
        dragOffset := some { dx := point.x - l.x, dy := point.y - l.y } } }
  else if h6 : hit.isSome ∧ button = 2 then
    let l := hit.get h6.1
    { w with stage := { w.stage with
        resizeState := some
          { id := l.id
            start := { x := l.x, y := l.y, width := l.width, height := l.height }
            startPoint := point } } }
  else if (effectiveImage env w.config).isNone ∧ w.config.mode ≠ Mode.text then
    { w with stage := clearTextSelection w.stage }
  else if textHit.isNone ∧ stickerHit.isNone ∧ hit.isNone ∧ w.stage.activeTextId.isSome then
    { w with stage := clearTextSelection w.stage }
  else
    { w with stage := { w.stage with dragStart := some point, dragCurrent := some point } }

/-- `handlePointerMove`: dispatch to whichever transient state is active, in
the source's priority order; otherwise advance the preview point. -/
def handlePointerMove (env : Env) (w : World) (point : Point) : World :=
  if h : w.stage.textResizeState.isSome then
    let rs := w.stage.textResizeState.get h
    let dx := point.x - rs.startPoint.x
    let dy := point.y - rs.startPoint.y
    let nextWidth := max 30 (rs.start.width + dx)
    let nextHeight := max 18 (rs.start.height + dy)
    match w.app.texts.find? (fun t => t.id = rs.id) with
    | some currentText =>
        let lines := splitLines currentText.text
        let longest := lines.foldl (fun m line => max m (line.length : ℚ)) 1
        let newSize := max 10 (min 200
          (min (nextWidth / max 1 longest / (3 / 5)) (nextHeight / (6 / 5) / (lines.length : ℚ))))
        { w with app := onTextUpdate w.app rs.id (fun t => { t with size := newSize }) }
    | none => w
  else if h : w.stage.activeTextId.isSome ∧ w.stage.textDragOffset.isSome then
    let tid := w.stage.activeTextId.get h.1
    let off := w.stage.textDragOffset.get h.2
    match w.app.texts.find? (fun t => t.id = tid) with
    | some text =>
        let bounds := getTextBounds env.measure text
        let newX := clamp (point.x - off.dx) 0 (env.width - bounds.width)
        let newY := clamp (point.y - off.dy) 0 (env.height - bounds.height)
        { w with app := onTextUpdate w.app text.id (fun t => { t with x := newX, y := newY }) }
    | none => w
  else if h : w.stage.stickerResizeState.isSome ∧ env.stickerImage.isSome then
    let rs := w.stage.stickerResizeState.get h.1
    let img := env.stickerImage.get h.2
    let dx := point.x - rs.startPoint.x
    let dy := point.y - rs.startPoint.y
    let ratio :=
      if img.naturalWidth ≠ 0 ∧ img.naturalHeight ≠ 0 then
        img.naturalWidth / img.naturalHeight
      else 1
    let newWidth0 := rs.start.width + dx
    let newHeight0 := newWidth0 / ratio
    let newHeight1 := if newHeight0 < rs.start.height + dy then rs.start.height + dy else newHeight0
    let newWidth1 := if newHeight0 < rs.start.height + dy then newHeight1 * ratio else newWidth0
    let newWidth := clamp newWidth1 40 (env.width - rs.start.x)
    let newHeight := clamp newHeight1 40 (env.height - rs.start.y)
    let app := onStickerUpdate w.app rs.id
      (fun s => { s with width := newWidth, height := newHeight })
    { w with app := app }
  else if h : w.stage.activeStickerId.isSome ∧ w.stage.stickerDragOffset.isSome then
    let sid := w.stage.activeStickerId.get h.1
    let off := w.stage.stickerDragOffset.get h.2
    match w.app.stickers.find? (fun s => s.id = sid) with
    | some sticker =>
        let newX := clamp (point.x - off.dx) 0 (env.width - sticker.width)
        let newY := clamp (point.y - off.dy) 0 (env.height - sticker.height)
        let app := onStickerUpdate w.app sticker.id (fun s => { s with x := newX, y := newY })
        { w with app := app }
    | none => w
  else if h : w.stage.resizeState.isSome then
    let rs := w.stage.resizeState.get h
    let dx := point.x - rs.startPoint.x
    let dy := point.y - rs.startPoint.y
    let newWidth := clamp (rs.start.width + dx) 60 (env.width - rs.start.x)
    let newHeight := clamp (rs.start.height + dy) 60 (env.height - rs.start.y)
    let isCircle : Bool :=
      ((w.app.lenses.find? (fun l => l.id = rs.id)).map
        (fun l => decide (l.shape = LensShape.circle))).getD false
    if isCircle = true then
      let unified := min (max newWidth newHeight)
        (min (env.width - rs.start.x) (env.height - rs.start.y))
      let app := onLensUpdate w.app rs.id
        (fun l => { l with width := unified, height := unified })
      { w with app := app }
    else
      let app := onLensUpdate w.app rs.id
        (fun l => { l with width := newWidth, height := newHeight })
      { w with app := app }
  else if h : w.stage.activeLensId.isSome ∧ w.stage.dragOffset.isSome then
    let lid := w.stage.activeLensId.get h.1
    let off := w.stage.dragOffset.get h.2
    match w.app.lenses.find? (fun l => l.id = lid) with
    | some lens =>
        let newX := clamp (point.x - off.dx) 0 (env.width - lens.width)
        let newY := clamp (point.y - off.dy) 0 (env.height - lens.height)
        let app := onLensUpdate w.app lens.id
          (fun l => { l with
            x := newX, y := newY
            sourceX := lens.sourceX + (newX - lens.x)
            sourceY := lens.sourceY + (newY - lens.y) })
        { w with app := app }
    | none => w
  else if w.stage.dragStart.isSome then
    { w with stage := { w.stage with dragCurrent := some point } }
  else
    w

/-- `handlePointerUp`: end whichever transient gesture is active; a finished
preview drag creates a text, a sticker, or a lens depending on the mode,
distinguishing a click (movement < 8 in both axes) from a drag. -/
def handlePointerUp (env : Env) (w : World) (newId : String) (now : ℚ) : World :=
  if w.stage.textResizeState.isSome then
    { w with stage := { w.stage with textResizeState := none } }
  else
    let stage0 := { w.stage with textDragOffset := none }
    if stage0.stickerResizeState.isSome then
      { w with stage := { stage0 with stickerResizeState := none } }
    else if stage0.activeStickerId.isSome then
      { w with stage := { stage0 with activeStickerId := none, stickerDragOffset := none } }
    else if stage0.resizeState.isSome then
      { w with stage := { stage0 with resizeState := none } }
    else if stage0.activeLensId.isSome then
      { w with stage := { stage0 with activeLensId := none, dragOffset := none } }
    else
      match stage0.dragStart with
      | none => { w with stage := stage0 }
      | some dragStart =>
        let cfg := w.config
        let pend := stage0.dragCurrent.getD dragStart
        let width0 := |pend.x - dragStart.x|
        let height0 := |pend.y - dragStart.y|
        let isClick := width0 < 8 ∧ height0 < 8
        let stageDone := { stage0 with dragStart := none, dragCurrent := none }
        if cfg.mode = Mode.text then
          let content := cfg.textValue.trim
          if content = "" then
            { w with stage := stageDone }
          else
            let est := estimateTextBounds env.measure content cfg.textSize cfg.textFont
            let x := clamp (if isClick then dragStart.x - est.width / 2
                            else min dragStart.x pend.x) 0 (env.width - est.width)
            let y := clamp (if isClick then dragStart.y - est.height / 2
                            else min dragStart.y pend.y) 0 (env.height - est.height)
            let newText : TextOverlay :=
              { id := newId, x := x, y := y, text := content,
                color := cfg.textColor, size := cfg.textSize, font := cfg.textFont }
            { w with
              app := handleTextAdd w.app newText
              config := handleTextSelect cfg newText
              stage := { stageDone with activeTextId := some newId, textDragOffset := none } }
        else if h : cfg.mode = Mode.sticker ∧ env.stickerImage.isSome then
          let img := env.stickerImage.get h.2
          let w1 := if isClick then cfg.lensSize else width0
          let h1 := if isClick then cfg.lensSize else height0
          let ratio :=
            if img.naturalWidth ≠ 0 ∧ img.naturalHeight ≠ 0 then
              img.naturalWidth / img.naturalHeight
            else 1
          let w2 := if w1 / h1 > ratio then h1 * ratio else w1
          let h2 := if w1 / h1 > ratio then h1 else w1 / ratio
          let x := if isClick then dragStart.x - w2 / 2 else min dragStart.x pend.x
          let y := if isClick then dragStart.y - h2 / 2 else min dragStart.y pend.y
          let clampedWidth := clamp w2 40 env.width
          let clampedHeight := clamp h2 40 env.height
          let clampedX := clamp x 0 (env.width - clampedWidth)
          let clampedY := clamp y 0 (env.height - clampedHeight)
          let sticker : Sticker :=
            { id := newId, x := clampedX, y := clampedY,
              width := clampedWidth, height := clampedHeight,
              image := img, shape := cfg.lensShape }
          { w with app := handleStickerAdd w.app sticker, stage := stageDone }
        else
          let lens : Lens :=
            if cfg.mode = Mode.magnify then
              let widthHeight := min cfg.lensSize (min env.width env.height)
              let targetCenter : Point :=
                if isClick then
                  { x := clamp (dragStart.x + widthHeight * (13 / 20)) 0 env.width
                    y := clamp (dragStart.y - widthHeight * (1 / 4)) 0 env.height }
                else
                  { x := pend.x, y := pend.y }
              let x := clamp (targetCenter.x - widthHeight / 2) 0 (env.width - widthHeight)
              let y := clamp (targetCenter.y - widthHeight / 2) 0 (env.height - widthHeight)
              let imagePoint := toImagePoint env cfg dragStart
              { id := newId, x := x, y := y,
                width := widthHeight, height := widthHeight,
                sourceX := clamp dragStart.x 0 env.width
                sourceY := clamp dragStart.y 0 env.height
                sourceImageX := imagePoint.x, sourceImageY := imagePoint.y,
                shape := cfg.lensShape, mode := cfg.mode,
                blur := cfg.blurAmount, magnification := cfg.magnification,
                createdAt := now }
            else
              let w1 := if isClick then cfg.lensSize else width0
              let h1 := if isClick then cfg.lensSize else height0
              let x := if isClick then dragStart.x - w1 / 2 else min dragStart.x pend.x
              let y := if isClick then dragStart.y - h1 / 2 else min dragStart.y pend.y
              let clampedWidth := min w1 env.width
              let clampedHeight := min h1 env.height
              let clampedX := clamp x 0 (env.width - clampedWidth)
              let clampedY := clamp y 0 (env.height - clampedHeight)
              let imagePoint := toImagePoint env cfg
                { x := clampedX + clampedWidth / 2, y := clampedY + clampedHeight / 2 }
              { id := newId, x := clampedX, y := clampedY,
                width := clampedWidth, height := clampedHeight,
                sourceX := clampedX + clampedWidth / 2
                sourceY := clampedY + clampedHeight / 2
                sourceImageX := imagePoint.x, sourceImageY := imagePoint.y,
                shape := cfg.lensShape, mode := cfg.mode,
                blur := cfg.blurAmount, magnification := cfg.magnification,
                createdAt := now }
          { w with app := handleLensAdd w.app lens, stage := stageDone }

/-! ## Scene compositor (src/lib/canvas.ts), as a trace of paint operations -/

/-- `LensPreview` from `lib/types.ts`. -/
structure LensPreview where
  x : ℚ
  y : ℚ
  width : ℚ
  height : ℚ
  shape : LensShape
  deriving DecidableEq, Repr

/-- The display-space position of a lens's captured source point, as
computed by `drawLens` and `drawConnector`:
`offset + sourceImage * scale` in each axis. -/
def lensSourceDisplay (lens : Lens) (d : DrawMetrics) : Point :=
  { x := d.offsetX + lens.sourceImageX * d.scale
    y := d.offsetY + lens.sourceImageY * d.scale }

/-- The visual center of a lens's display rectangle. -/
def lensCenter (lens : Lens) : Point :=
  { x := lens.x + lens.width / 2, y := lens.y + lens.height / 2 }

/-- How `drawLens` fills the clipped region: a blur-filtered redraw of the
base image, or a redraw transformed so the source point maps to the lens
center at clamped magnification. -/
inductive LensRender where
  | blurDraw (blur : ℚ) (img : ImgDim) (d : DrawMetrics)
  | magnifyDraw (center : Point) (mag : ℚ) (sourceDisplay : Point) (img : ImgDim) (d : DrawMetrics)
  deriving DecidableEq, Repr

/-- One primitive painting step of the compositor. -/
inductive PaintOp where
  | imageDraw (img : ImgDim) (d : DrawMetrics)
  | placeholder (backgroundColor : String) (showLabel : Bool)
  | stickerDraw (s : Sticker)
  | textDraw (t : TextOverlay)
  | connector (lens : Lens) (source target : Point)
  | lensContent (lens : Lens) (r : LensRender)
  | glass (lens : Lens)
  | previewDraw (p : LensPreview)
  deriving DecidableEq, Repr

/-- `drawLens`: nothing without an image context; otherwise the clipped
content (blur or magnify transform), then the glass overlay for magnify
lenses only. -/
def drawLens (image : Option ImgDim) (lens : Lens) (draw : Option DrawMetrics) : List PaintOp :=
  match image, draw with
  | some img, some d =>
      let content :=
        if lens.mode = Mode.blur then LensRender.blurDraw lens.blur img d
        else
          LensRender.magnifyDraw (lensCenter lens) (clamp lens.magnification 1 4)
            (lensSourceDisplay lens d) img d
      PaintOp.lensContent lens content ::
        (if lens.mode = Mode.magnify then [PaintOp.glass lens] else [])
  | _, _ => []

/-- `drawConnector`: the tapered quadrilateral plus source marker, recorded
by its source and target anchor points. -/
def drawConnector (lens : Lens) (d : DrawMetrics) : PaintOp :=
  PaintOp.connector lens (lensSourceDisplay lens d) (lensCenter lens)

/-- `renderScene`: the full deterministic paint sequence in source order —
base image (or placeholder), stickers (only with an image context), texts,
connectors of magnify lenses, every lens's content, then the preview. -/
def renderScene (image : Option ImgDim) (lenses : List Lens) (stickers : List Sticker)
    (texts : List TextOverlay) (preview : Option LensPreview) (width height : ℚ)
    (backgroundColor : String) (showPlaceholder : Bool) : List PaintOp :=
  let draw := image.map (fun img => computeDraw img width height)
  let base :=
    match image with
    | some img => [PaintOp.imageDraw img (computeDraw img width height)]
    | none => [PaintOp.placeholder backgroundColor showPlaceholder]
  let stickerOps :=
    match draw with
    | some _ => stickers.map PaintOp.stickerDraw
    | none => []
  let textOps := texts.map PaintOp.textDraw
  let connectorOps := (lenses.filter (fun l => decide (l.mode = Mode.magnify))).filterMap
    (fun l => draw.map (fun d => drawConnector l d))
  let lensOps := lenses.flatMap (fun l => drawLens image l draw)
  let previewOps :=
    match preview with
    | some p => [PaintOp.previewDraw p]
    | none => []
  base ++ stickerOps ++ textOps ++ connectorOps ++ lensOps ++ previewOps

/-- The fixed z-order layer of a paint operation. -/
def layerTag : PaintOp → Nat
  | .imageDraw _ _ => 0
  | .placeholder _ _ => 0
  | .stickerDraw _ => 1
  | .textDraw _ => 2
  | .connector _ _ _ => 3
  | .lensContent _ _ => 4
  | .glass _ => 4
  | .previewDraw _ => 5

/-! ## History lemmas -/

/-- The last `n` entries of a list (`slice(-n)`). -/
def sliceLast {α : Type} (l : List α) (n : ℕ) : List α :=
  l.drop (l.length - n)

theorem pushHistory_eq_sliceLast (h : List Snapshot) (x : Snapshot) :
    pushHistory h x = sliceLast (h ++ [x]) 50 := by
  unfold pushHistory sliceLast
  rw [List.length_append, List.length_singleton]
  rw [List.drop_append_of_le_length (by omega)]
  congr 2

theorem sliceLast_append_sliceLast {α : Type} (l r : List α) (n : ℕ) :
    sliceLast (sliceLast l n ++ r) n = sliceLast (l ++ r) n := by
  unfold sliceLast
  rcases le_or_lt l.length n with hL | hL
  · simp [Nat.sub_eq_zero_of_le hL]
  · have hlen : (l.drop (l.length - n)).length = n := by
      rw [List.length_drop]; omega
    rw [List.length_append, hlen, List.length_append]
    rcases le_or_lt r.length n with hR | hR
    · rw [List.drop_append_of_le_length (by omega),
        List.drop_append_of_le_length (by omega), List.drop_drop]
      congr 2
      omega
    · have e1 : n + r.length - n = (l.drop (l.length - n)).length + (r.length - n) := by
        rw [hlen]; omega
      have e2 : l.length + r.length - n = l.length + (r.length - n) := by omega
      rw [e1, e2, List.drop_append, List.drop_append]

theorem foldl_pushHistory (snaps : List Snapshot) (init : List Snapshot) (h : snaps ≠ []) :
    snaps.foldl pushHistory init = sliceLast (init ++ snaps) 50 := by
  induction snaps generalizing init with
  | nil => cases h rfl
  | cons s rest ih =>
    cases rest with
    | nil => simpa using pushHistory_eq_sliceLast init s
    | cons b bs =>
      rw [List.foldl_cons, ih (pushHistory init s) (by simp),
        pushHistory_eq_sliceLast, sliceLast_append_sliceLast]
      simp

/-- A state whose history ends in the snapshot `x` undoes to `x`. -/
theorem handleUndo_snap_of_history (st : AppState) (h0 : List Snapshot) (x : Snapshot)
    (hh : st.history = pushHistory h0 x) : (handleUndo st).snap = x := by
  unfold handleUndo pushHistory at *
  rw [hh, List.getLast?_concat]
  rfl

theorem pushed_lenses (s : AppState) : s.pushed.lenses = s.lenses := by
  unfold AppState.pushed
  split <;> rfl

theorem pushed_stickers (s : AppState) : s.pushed.stickers = s.stickers := by
  unfold AppState.pushed
  split <;> rfl

theorem pushed_texts (s : AppState) : s.pushed.texts = s.texts := by
  unfold AppState.pushed
  split <;> rfl

/-- Two members of a key-unique list with the same key are equal. -/
theorem eq_of_mem_of_key_unique {α : Type} {key : α → String} {l : List α}
    (huniq : l.Pairwise (fun a b => key a ≠ key b)) {a b : α}
    (ha : a ∈ l) (hb : b ∈ l) (hid : key a = key b) : a = b := by
  by_contra hne
  have hsym : Symmetric (fun x y : α => key x ≠ key y) := fun x y h => (Ne.symm h)
  exact (List.Pairwise.forall hsym huniq ha hb hne) hid

theorem clamp_le_right (v lo hi : ℚ) : clamp v lo hi ≤ hi :=
  min_le_right _ _

theorem le_clamp_of_le (v lo hi : ℚ) (h : lo ≤ hi) : lo ≤ clamp v lo hi :=
  le_min (le_max_right _ _) h

theorem clamp_add_le (v w W : ℚ) : clamp v 0 (W - w) + w ≤ W := by
  have := clamp_le_right v 0 (W - w)
  linarith

theorem add_clamp_le (v lo x y W : ℚ) (h : x = y) : y + clamp v lo (W - x) ≤ W := by
  subst h
  have := clamp_le_right v lo (W - x)
  linarith

theorem clamp_eq_self (v lo hi : ℚ) (h1 : lo ≤ v) (h2 : v ≤ hi) : clamp v lo hi = v := by
  unfold clamp
  rw [max_eq_left h1, min_eq_left h2]

/-- Appending two tag-sorted op lists separated by a boundary tag is
tag-sorted. -/
theorem pairwise_tag_append_of_bounds (l1 l2 : List PaintOp) (c : ℕ)
    (h1 : List.Pairwise (fun a b => layerTag a ≤ layerTag b) l1)
    (h2 : List.Pairwise (fun a b => layerTag a ≤ layerTag b) l2)
    (hb1 : ∀ o ∈ l1, layerTag o ≤ c) (hb2 : ∀ o ∈ l2, c ≤ layerTag o) :
    List.Pairwise (fun a b => layerTag a ≤ layerTag b) (l1 ++ l2) :=
  List.pairwise_append.mpr ⟨h1, h2, fun a ha b hb => le_trans (hb1 a ha) (hb2 b hb)⟩

/-- A list of ops sharing one layer tag is tag-sorted. -/
theorem pairwise_tag_of_const (l : List PaintOp) (c : ℕ) (h : ∀ o ∈ l, layerTag o = c) :
    List.Pairwise (fun a b => layerTag a ≤ layerTag b) l := by
  induction l with
  | nil => exact List.Pairwise.nil
  | cons a t ih =>
    refine List.Pairwise.cons ?_ (ih fun o ho => h o (List.mem_cons_of_mem a ho))
    intro b hb
    rw [h a (List.mem_cons_self a t), h b (List.mem_cons_of_mem a hb)]

theorem forall_mem_append {P : PaintOp → Prop} {l1 l2 : List PaintOp}
    (h1 : ∀ o ∈ l1, P o) (h2 : ∀ o ∈ l2, P o) : ∀ o ∈ l1 ++ l2, P o := by
  intro o ho
  rcases List.mem_append.mp ho with h | h
  exacts [h1 o h, h2 o h]

theorem tag_le_of_const {l : List PaintOp} {c k : ℕ} (h : ∀ o ∈ l, layerTag o = k)
    (hkc : k ≤ c) : ∀ o ∈ l, layerTag o ≤ c :=
  fun o ho => le_trans (le_of_eq (h o ho)) hkc

theorem le_tag_of_const {l : List PaintOp} {c k : ℕ} (h : ∀ o ∈ l, layerTag o = k)
    (hck : c ≤ k) : ∀ o ∈ l, c ≤ layerTag o :=
  fun o ho => le_trans hck (le_of_eq (h o ho).symm)

/-- Six layer segments with constant tags 0..5 concatenate to a tag-sorted
paint sequence. -/
theorem pairwise_tag_six (A B C D E F : List PaintOp)
    (hA : ∀ o ∈ A, layerTag o = 0) (hB : ∀ o ∈ B, layerTag o = 1)
    (hC : ∀ o ∈ C, layerTag o = 2) (hD : ∀ o ∈ D, layerTag o = 3)
    (hE : ∀ o ∈ E, layerTag o = 4) (hF : ∀ o ∈ F, layerTag o = 5) :
    List.Pairwise (fun a b => layerTag a ≤ layerTag b) (A ++ B ++ C ++ D ++ E ++ F) := by
  have gEF : ∀ o ∈ E ++ F, 4 ≤ layerTag o :=
    forall_mem_append (le_tag_of_const hE (by norm_num)) (le_tag_of_const hF (by norm_num))
  have pEF := pairwise_tag_append_of_bounds E F 5
    (pairwise_tag_of_const E 4 hE) (pairwise_tag_of_const F 5 hF)
    (tag_le_of_const hE (by norm_num)) (le_tag_of_const hF (by norm_num))
  have gDEF : ∀ o ∈ D ++ (E ++ F), 3 ≤ layerTag o :=
    forall_mem_append (le_tag_of_const hD (by norm_num))
      (fun o ho => le_trans (by norm_num) (gEF o ho))
  have pDEF := pairwise_tag_append_of_bounds D (E ++ F) 4
    (pairwise_tag_of_const D 3 hD) pEF
    (tag_le_of_const hD (by norm_num)) gEF
  have gCDEF : ∀ o ∈ C ++ (D ++ (E ++ F)), 2 ≤ layerTag o :=
    forall_mem_append (le_tag_of_const hC (by norm_num))
      (fun o ho => le_trans (by norm_num) (gDEF o ho))
  have pCDEF := pairwise_tag_append_of_bounds C (D ++ (E ++ F)) 3
    (pairwise_tag_of_const C 2 hC) pDEF
    (tag_le_of_const hC (by norm_num)) gDEF
  have gBCDEF : ∀ o ∈ B ++ (C ++ (D ++ (E ++ F))), 1 ≤ layerTag o :=
    forall_mem_append (le_tag_of_const hB (by norm_num))
      (fun o ho => le_trans (by norm_num) (gCDEF o ho))
  have pBCDEF := pairwise_tag_append_of_bounds B (C ++ (D ++ (E ++ F))) 2
    (pairwise_tag_of_const B 1 hB) pCDEF
    (tag_le_of_const hB (by norm_num)) gCDEF
  have hfull := pairwise_tag_append_of_bounds A (B ++ (C ++ (D ++ (E ++ F)))) 1
    (pairwise_tag_of_const A 0 hA) pBCDEF
    (tag_le_of_const hA (by norm_num)) gBCDEF
  simpa [List.append_assoc] using hfull

/-- Every op emitted by `drawLens` is in the lens-content layer. -/
theorem tag_of_lensOps (imageOpt : Option ImgDim) (drawOpt : Option DrawMetrics)
    (ls : List Lens) :
    ∀ o ∈ ls.flatMap (fun l => drawLens imageOpt l drawOpt), layerTag o = 4 := by
  intro o ho
  rcases List.mem_flatMap.mp ho with ⟨l, _, hol⟩
  cases imageOpt with
  | none => simp [drawLens] at hol
  | some img =>
    cases drawOpt with
    | none => simp [drawLens] at hol
    | some d =>
      unfold drawLens at hol
      rcases List.mem_cons.mp hol with rfl | h
      · rfl
      · by_cases hm : l.mode = Mode.magnify
        · rw [if_pos hm] at h
          rcases List.mem_singleton.mp h with rfl
          rfl
        · rw [if_neg hm] at h
          simp at h

/-! ## Claim theorems -/

/-- C6: the undo history never exceeds 50 snapshots, and after 60 pushes
exactly the snapshots of the 50 most recent mutations remain (oldest
dropped first). -/
theorem history_bound_and_retention :
    (∀ snaps : List Snapshot, (snaps.foldl pushHistory []).length ≤ 50) ∧
    (∀ snaps : List Snapshot, snaps.length = 60 →
      snaps.foldl pushHistory [] = snaps.drop 10 ∧
        (snaps.foldl pushHistory []).length = 50) := by
  constructor
  · intro snaps
    rcases eq_or_ne snaps [] with h | h
    · simp [h]
    · rw [foldl_pushHistory snaps [] h]
      unfold sliceLast
      rw [List.length_drop]
      omega
  · intro snaps hlen
    have hne : snaps ≠ [] := by
      intro h
      rw [h] at hlen
      simp at hlen
    rw [foldl_pushHistory snaps [] hne]
    unfold sliceLast
    simp [hlen]

/-- Witness for the history-bound theorem at a concrete 60-push sequence. -/
theorem history_bound_witness :
    (List.replicate 60 (Snapshot.mk [] [] [])).length = 60 ∧
      (List.replicate 60 (Snapshot.mk [] [] [])).foldl pushHistory [] =
        (List.replicate 60 (Snapshot.mk [] [] [])).drop 10 :=
  ⟨by decide, (history_bound_and_retention.2 _ (by decide)).1⟩

/-- C5: one mutating page action followed by `undo()` restores the three
collections exactly, and `undo()` on an empty history is a no-op. -/
theorem undo_round_trip :
    (∀ (s : AppState) (a : PageAction), s.isUndoing = false → a.effective →
      (handleUndo (applyAction s a)).snap = s.snap) ∧
    (∀ s : AppState, s.history = [] → handleUndo s = s) := by
  constructor
  · intro s a hu he
    cases a with
    | lensAdd lens =>
        refine handleUndo_snap_of_history _ s.history s.snap ?_
        simp [applyAction, handleLensAdd, AppState.pushed, hu]
    | stickerAdd sticker =>
        refine handleUndo_snap_of_history _ s.history s.snap ?_
        simp [applyAction, handleStickerAdd, AppState.pushed, hu]
    | textAdd t =>
        refine handleUndo_snap_of_history _ s.history s.snap ?_
        simp only [PageAction.effective] at he
        simp [applyAction, handleTextAdd, AppState.pushed, hu, he]
    | lensUpdate id patch =>
        refine handleUndo_snap_of_history _ s.history s.snap ?_
        simp [applyAction, onLensUpdate, AppState.pushed, hu]
    | stickerUpdate id patch =>
        refine handleUndo_snap_of_history _ s.history s.snap ?_
        simp [applyAction, onStickerUpdate, AppState.pushed, hu]
    | textUpdate id patch =>
        refine handleUndo_snap_of_history _ s.history s.snap ?_
        simp [applyAction, onTextUpdate, AppState.pushed, hu]
    | reset =>
        refine handleUndo_snap_of_history _ s.history s.snap ?_
        simp [applyAction, handleReset, AppState.pushed, hu]
  · intro s hh
    unfold handleUndo
    rw [hh]
    rfl

/-- Witness for the undo round-trip at a concrete state and action. -/
theorem undo_round_trip_witness :
    ((AppState.mk [] [] [] [] false none).isUndoing = false ∧
      PageAction.effective PageAction.reset ∧
      (handleUndo (applyAction (AppState.mk [] [] [] [] false none) PageAction.reset)).snap =
        (AppState.mk [] [] [] [] false none).snap) ∧
    ((AppState.mk [] [] [] [] false none).history = [] ∧
      handleUndo (AppState.mk [] [] [] [] false none) = AppState.mk [] [] [] [] false none) :=
  ⟨⟨rfl, trivial, undo_round_trip.1 _ _ rfl trivial⟩,
    ⟨rfl, undo_round_trip.2 _ rfl⟩⟩

/-- C3 counterexample: picking a new sticker source does not remove the
existing sticker entities — the stickers collection is unchanged (and
non-empty) afterwards; only the history is cleared. -/
theorem stickerPicked_claim_counterexample :
    (handleStickerPicked
      (AppState.mk [] [Sticker.mk "s1" 0 0 100 100 (ImgDim.mk 400 200) LensShape.rounded] []
        [Snapshot.mk [] [] []] false (some "old")) "new").stickers =
      [Sticker.mk "s1" 0 0 100 100 (ImgDim.mk 400 200) LensShape.rounded] := rfl

/-- C3 amended: changing the sticker source clears the undo history and
records the new source; all three overlay collections (stickers included)
are left untouched. -/
theorem stickerPicked_clears_history_not_stickers (s : AppState) (result : String) :
    (handleStickerPicked s result).stickers = s.stickers ∧
    (handleStickerPicked s result).lenses = s.lenses ∧
    (handleStickerPicked s result).texts = s.texts ∧
    (handleStickerPicked s result).history = [] ∧
    (handleStickerPicked s result).stickerSrc = some result :=
  ⟨rfl, rfl, rfl, rfl, rfl⟩

/-- C1: resizing a lens whose shape is `circle` unifies both dimensions to
`min(max(newWidth, newHeight), min(canvasW - x, canvasH - y))`; in
particular `width = height` holds for the resized lens. -/
theorem circle_lens_resize_unifies
    (env : Env) (app : AppState) (cfg : Config) (rs : ResizeStart) (point : Point) (l0 : Lens)
    (hfind : app.lenses.find? (fun l => l.id = rs.id) = some l0)
    (hshape : l0.shape = LensShape.circle) :
    (handlePointerMove env ⟨app, { Stage.idle with resizeState := some rs }, cfg⟩ point).app.lenses =
      (app.pushed).lenses.map (fun l =>
        if l.id = rs.id then
          { l with
            width := min (max (clamp (rs.start.width + (point.x - rs.startPoint.x)) 60 (env.width - rs.start.x))
                              (clamp (rs.start.height + (point.y - rs.startPoint.y)) 60 (env.height - rs.start.y)))
                         (min (env.width - rs.start.x) (env.height - rs.start.y))
            height := min (max (clamp (rs.start.width + (point.x - rs.startPoint.x)) 60 (env.width - rs.start.x))
                               (clamp (rs.start.height + (point.y - rs.startPoint.y)) 60 (env.height - rs.start.y)))
                          (min (env.width - rs.start.x) (env.height - rs.start.y)) }
        else l) ∧
    ∀ l' ∈ (handlePointerMove env ⟨app, { Stage.idle with resizeState := some rs }, cfg⟩ point).app.lenses,
      l'.id = rs.id → l'.width = l'.height := by
  have hbranch :
      (handlePointerMove env ⟨app, { Stage.idle with resizeState := some rs }, cfg⟩ point).app.lenses =
        (app.pushed).lenses.map (fun l =>
          if l.id = rs.id then
            { l with
              width := min (max (clamp (rs.start.width + (point.x - rs.startPoint.x)) 60 (env.width - rs.start.x))
                                (clamp (rs.start.height + (point.y - rs.startPoint.y)) 60 (env.height - rs.start.y)))
                           (min (env.width - rs.start.x) (env.height - rs.start.y))
              height := min (max (clamp (rs.start.width + (point.x - rs.startPoint.x)) 60 (env.width - rs.start.x))
                                 (clamp (rs.start.height + (point.y - rs.startPoint.y)) 60 (env.height - rs.start.y)))
                            (min (env.width - rs.start.x) (env.height - rs.start.y)) }
          else l) := by
    simp [handlePointerMove, Stage.idle, hfind, hshape, onLensUpdate]
  refine ⟨hbranch, ?_⟩
  intro l' hl' hid
  rw [hbranch] at hl'
  rcases List.mem_map.mp hl' with ⟨l, _, hEq⟩
  by_cases hc : l.id = rs.id
  · rw [if_pos hc] at hEq
    rw [← hEq]
  · rw [if_neg hc] at hEq
    rw [← hEq] at hid
    exact absurd hid hc

/-- A concrete circle lens used for witness evaluation. -/
def c1Lens : Lens :=
  { id := "l1", x := 0, y := 0, width := 100, height := 100,
    sourceX := 50, sourceY := 50, sourceImageX := 25, sourceImageY := 25,
    mode := Mode.blur, shape := LensShape.circle, blur := 12,
    magnification := 2, createdAt := 0 }

/-- A concrete configuration (default control values). -/
def exCfg : Config :=
  { mode := Mode.blur, lensShape := LensShape.circle, lensSize := 320,
    blurAmount := 12, magnification := 2, textValue := "Sample text",
    textColor := "#f5f5f5", textSize := 28, textFont := "Terminus",
    backgroundMode := BackgroundMode.image }

/-- A concrete stage environment: the 920x620 default canvas, no bitmaps. -/
def exEnv : Env :=
  { width := 920, height := 620, image := none, stickerImage := none,
    measure := fallbackMeasure }

/-- Witness for the circle-lens resize theorem: a 100x100 circle lens whose
raw resize deltas give 140x90 snaps to 140x140. -/
theorem circle_lens_resize_witness :
    ((AppState.mk [c1Lens] [] [] [] false none).lenses.find?
        (fun l => l.id = (ResizeStart.mk "l1" (Rect.mk 0 0 100 100) (Point.mk 100 100)).id) =
      some c1Lens) ∧
    c1Lens.shape = LensShape.circle ∧
    (handlePointerMove exEnv
        ⟨AppState.mk [c1Lens] [] [] [] false none,
          { Stage.idle with resizeState := some (ResizeStart.mk "l1" (Rect.mk 0 0 100 100) (Point.mk 100 100)) },
          exCfg⟩ (Point.mk 140 90)).app.lenses =
      [{ c1Lens with width := 140, height := 140 }] := by
  refine ⟨rfl, rfl, ?_⟩
  have h := (circle_lens_resize_unifies exEnv (AppState.mk [c1Lens] [] [] [] false none) exCfg
    (ResizeStart.mk "l1" (Rect.mk 0 0 100 100) (Point.mk 100 100)) (Point.mk 140 90) c1Lens rfl rfl).1
  rw [h]
  norm_num [AppState.pushed, pushHistory, AppState.snap, c1Lens, exEnv, clamp, min_def, max_def]

/-- A concrete circle-shaped sticker backed by a 2:1 bitmap. -/
def c1Sticker : Sticker :=
  { id := "s1", x := 0, y := 0, width := 100, height := 100,
    image := ImgDim.mk 400 200, shape := LensShape.circle }

/-- The stage mid-way through a sticker resize gesture on sticker `s1`. -/
def c1sStage : Stage :=
  { Stage.idle with stickerResizeState := some (ResizeStart.mk "s1" (Rect.mk 0 0 100 100) (Point.mk 100 100)) }

/-- C1 counterexample: resizing a `circle` sticker does not preserve
`width = height` — the sticker resize path follows the bitmap aspect ratio
and ignores the shape, so a zero-delta resize of a 100x100 circle sticker
over a 400x200 bitmap yields 200x100. -/
theorem circle_sticker_resize_counterexample :
    (handlePointerMove
        (Env.mk 920 620 none (some (ImgDim.mk 400 200)) fallbackMeasure)
        ⟨AppState.mk [] [c1Sticker] [] [] false none, c1sStage, exCfg⟩
        (Point.mk 100 100)).app.stickers =
      [{ c1Sticker with width := 200, height := 100 }] ∧
    c1Sticker.shape = LensShape.circle ∧ (200 : ℚ) ≠ (100 : ℚ) := by
  refine ⟨?_, rfl, by norm_num⟩
  norm_num [handlePointerMove, c1sStage, Stage.idle, onStickerUpdate, AppState.pushed,
    pushHistory, AppState.snap, c1Sticker, clamp, min_def, max_def]

/-- C10: dragging a lens shifts `sourceX`/`sourceY` by exactly the delta of
`x`/`y` and preserves every other field; resizing touches only `width` and
`height`; hence the display position of the sampled image point
(`lensSourceDisplay`, the only source the compositor magnifies through) is
fixed under both gestures. -/
theorem lens_gestures_preserve_source
    (env : Env) (app : AppState) (cfg : Config) (point : Point)
    (lid : String) (off : Offset) (lens0 : Lens)
    (huniq : app.lenses.Pairwise (fun a b => a.id ≠ b.id))
    (hfind : app.lenses.find? (fun l => l.id = lid) = some lens0) :
    (∀ l' ∈ (handlePointerMove env
        ⟨app, { Stage.idle with activeLensId := some lid, dragOffset := some off }, cfg⟩
        point).app.lenses,
      ∃ l ∈ app.lenses,
        l'.id = l.id ∧ l'.sourceImageX = l.sourceImageX ∧ l'.sourceImageY = l.sourceImageY ∧
        l'.mode = l.mode ∧ l'.shape = l.shape ∧ l'.blur = l.blur ∧
        l'.magnification = l.magnification ∧ l'.width = l.width ∧ l'.height = l.height ∧
        l'.sourceX - l.sourceX = l'.x - l.x ∧ l'.sourceY - l.sourceY = l'.y - l.y ∧
        ∀ d : DrawMetrics, lensSourceDisplay l' d = lensSourceDisplay l d) ∧
    (∀ rs : ResizeStart, ∀ l' ∈ (handlePointerMove env
        ⟨app, { Stage.idle with resizeState := some rs }, cfg⟩ point).app.lenses,
      ∃ l ∈ app.lenses,
        l'.id = l.id ∧ l'.x = l.x ∧ l'.y = l.y ∧
        l'.sourceX = l.sourceX ∧ l'.sourceY = l.sourceY ∧
        l'.sourceImageX = l.sourceImageX ∧ l'.sourceImageY = l.sourceImageY ∧
        l'.mode = l.mode ∧ l'.shape = l.shape ∧ l'.blur = l.blur ∧
        l'.magnification = l.magnification ∧
        ∀ d : DrawMetrics, lensSourceDisplay l' d = lensSourceDisplay l d) := by
  have hmem0 : lens0 ∈ app.lenses := List.mem_of_find?_eq_some hfind
  have hid0 : lens0.id = lid := by
    have := List.find?_some hfind
    simpa using this
  constructor
  · have hA : (handlePointerMove env
        ⟨app, { Stage.idle with activeLensId := some lid, dragOffset := some off }, cfg⟩
        point).app.lenses =
        app.lenses.map (fun l =>
          if l.id = lens0.id then
            { l with
              x := clamp (point.x - off.dx) 0 (env.width - lens0.width)
              y := clamp (point.y - off.dy) 0 (env.height - lens0.height)
              sourceX := lens0.sourceX +
                (clamp (point.x - off.dx) 0 (env.width - lens0.width) - lens0.x)
              sourceY := lens0.sourceY +
                (clamp (point.y - off.dy) 0 (env.height - lens0.height) - lens0.y) }
          else l) := by
      simp [handlePointerMove, Stage.idle, hfind, onLensUpdate, pushed_lenses]
    intro l' hl'
    rw [hA] at hl'
    rcases List.mem_map.mp hl' with ⟨l, hl, hEq⟩
    refine ⟨l, hl, ?_⟩
    by_cases hc : l.id = lens0.id
    · have hll0 : l = lens0 := eq_of_mem_of_key_unique huniq hl hmem0 hc
      rw [if_pos hc] at hEq
      subst hEq
      subst hll0
      refine ⟨rfl, rfl, rfl, rfl, rfl, rfl, rfl, rfl, rfl, by ring, by ring, fun d => rfl⟩
    · rw [if_neg hc] at hEq
      subst hEq
      exact ⟨rfl, rfl, rfl, rfl, rfl, rfl, rfl, rfl, rfl, by ring, by ring, fun d => rfl⟩
  · intro rs
    have hB : ∃ nw nh : ℚ, (handlePointerMove env
        ⟨app, { Stage.idle with resizeState := some rs }, cfg⟩ point).app.lenses =
        app.lenses.map (fun l =>
          if l.id = rs.id then { l with width := nw, height := nh } else l) := by
      by_cases hc : ((app.lenses.find? (fun l => l.id = rs.id)).map
          (fun l => decide (l.shape = LensShape.circle))).getD false = true
      · refine ⟨min (max (clamp (rs.start.width + (point.x - rs.startPoint.x)) 60 (env.width - rs.start.x))
              (clamp (rs.start.height + (point.y - rs.startPoint.y)) 60 (env.height - rs.start.y)))
            (min (env.width - rs.start.x) (env.height - rs.start.y)),
          min (max (clamp (rs.start.width + (point.x - rs.startPoint.x)) 60 (env.width - rs.start.x))
              (clamp (rs.start.height + (point.y - rs.startPoint.y)) 60 (env.height - rs.start.y)))
            (min (env.width - rs.start.x) (env.height - rs.start.y)), ?_⟩
        simp [handlePointerMove, Stage.idle, onLensUpdate, pushed_lenses, hc]
      · refine ⟨clamp (rs.start.width + (point.x - rs.startPoint.x)) 60 (env.width - rs.start.x),
          clamp (rs.start.height + (point.y - rs.startPoint.y)) 60 (env.height - rs.start.y), ?_⟩
        simp [handlePointerMove, Stage.idle, onLensUpdate, pushed_lenses, hc]
    intro l' hl'
    rcases hB with ⟨nw, nh, hEq2⟩
    rw [hEq2] at hl'
    rcases List.mem_map.mp hl' with ⟨l, hl, hEq⟩
    refine ⟨l, hl, ?_⟩
    by_cases hc : l.id = rs.id
    · rw [if_pos hc] at hEq
      subst hEq
      exact ⟨rfl, rfl, rfl, rfl, rfl, rfl, rfl, rfl, rfl, rfl, rfl, fun d => rfl⟩
    · rw [if_neg hc] at hEq
      subst hEq
      exact ⟨rfl, rfl, rfl, rfl, rfl, rfl, rfl, rfl, rfl, rfl, rfl, fun d => rfl⟩

/-- Witness for the source-preservation theorem at a concrete drag. -/
theorem lens_gestures_preserve_source_witness :
    (AppState.mk [c1Lens] [] [] [] false none).lenses.Pairwise (fun a b => a.id ≠ b.id) ∧
    (AppState.mk [c1Lens] [] [] [] false none).lenses.find? (fun l => l.id = "l1") = some c1Lens ∧
    ∀ l' ∈ (handlePointerMove exEnv
        ⟨AppState.mk [c1Lens] [] [] [] false none,
          { Stage.idle with activeLensId := some "l1", dragOffset := some (Offset.mk 10 20) },
          exCfg⟩ (Point.mk 200 300)).app.lenses,
      ∃ l ∈ (AppState.mk [c1Lens] [] [] [] false none).lenses,
        l'.id = l.id ∧ l'.sourceImageX = l.sourceImageX ∧ l'.sourceImageY = l.sourceImageY ∧
        l'.mode = l.mode ∧ l'.shape = l.shape ∧ l'.blur = l.blur ∧
        l'.magnification = l.magnification ∧ l'.width = l.width ∧ l'.height = l.height ∧
        l'.sourceX - l.sourceX = l'.x - l.x ∧ l'.sourceY - l.sourceY = l'.y - l.y ∧
        ∀ d : DrawMetrics, lensSourceDisplay l' d = lensSourceDisplay l d :=
  ⟨by simp, rfl,
    (lens_gestures_preserve_source exEnv (AppState.mk [c1Lens] [] [] [] false none) exCfg
      (Point.mk 200 300) "l1" (Offset.mk 10 20) c1Lens (by simp) rfl).1⟩

/-- Lens drag keeps the dragged lens inside the canvas. -/
theorem lensDrag_inCanvas
    (env : Env) (app : AppState) (cfg : Config) (point : Point)
    (lid : String) (off : Offset) (lens0 : Lens)
    (huniq : app.lenses.Pairwise (fun a b => a.id ≠ b.id))
    (hfind : app.lenses.find? (fun l => l.id = lid) = some lens0)
    (hw : lens0.width ≤ env.width) (hh : lens0.height ≤ env.height) :
    ∀ l' ∈ (handlePointerMove env
        ⟨app, { Stage.idle with activeLensId := some lid, dragOffset := some off }, cfg⟩
        point).app.lenses,
      l'.id = lens0.id →
        0 ≤ l'.x ∧ 0 ≤ l'.y ∧ l'.x + l'.width ≤ env.width ∧ l'.y + l'.height ≤ env.height := by
  have hmem0 : lens0 ∈ app.lenses := List.mem_of_find?_eq_some hfind
  have hA : (handlePointerMove env
      ⟨app, { Stage.idle with activeLensId := some lid, dragOffset := some off }, cfg⟩
      point).app.lenses =
      app.lenses.map (fun l =>
        if l.id = lens0.id then
          { l with
            x := clamp (point.x - off.dx) 0 (env.width - lens0.width)
            y := clamp (point.y - off.dy) 0 (env.height - lens0.height)
            sourceX := lens0.sourceX +
              (clamp (point.x - off.dx) 0 (env.width - lens0.width) - lens0.x)
            sourceY := lens0.sourceY +
              (clamp (point.y - off.dy) 0 (env.height - lens0.height) - lens0.y) }
        else l) := by
    simp [handlePointerMove, Stage.idle, hfind, onLensUpdate, pushed_lenses]
  intro l' hl' hid
  rw [hA] at hl'
  rcases List.mem_map.mp hl' with ⟨l, hl, hEq⟩
  by_cases hc : l.id = lens0.id
  · have hll0 : l = lens0 := eq_of_mem_of_key_unique huniq hl hmem0 hc
    rw [if_pos hc] at hEq
    subst hEq
    subst hll0
    refine ⟨le_clamp_of_le _ _ _ (by linarith), le_clamp_of_le _ _ _ (by linarith), ?_, ?_⟩
    · exact clamp_add_le _ _ _
    · exact clamp_add_le _ _ _
  · rw [if_neg hc] at hEq
    subst hEq
    exact absurd hid hc

/-- Lens resize keeps the resized lens inside the canvas. -/
theorem lensResize_inCanvas
    (env : Env) (app : AppState) (cfg : Config) (point : Point)
    (rs : ResizeStart) (lens0 : Lens)
    (huniq : app.lenses.Pairwise (fun a b => a.id ≠ b.id))
    (hfind : app.lenses.find? (fun l => l.id = rs.id) = some lens0)
    (hsx : rs.start.x = lens0.x) (hsy : rs.start.y = lens0.y)
    (hx0 : 0 ≤ lens0.x) (hy0 : 0 ≤ lens0.y)
    (hxW : lens0.x ≤ env.width) (hyH : lens0.y ≤ env.height) :
    ∀ l' ∈ (handlePointerMove env
        ⟨app, { Stage.idle with resizeState := some rs }, cfg⟩ point).app.lenses,
      l'.id = rs.id →
        0 ≤ l'.x ∧ 0 ≤ l'.y ∧ l'.x + l'.width ≤ env.width ∧ l'.y + l'.height ≤ env.height := by
  have hmem0 : lens0 ∈ app.lenses := List.mem_of_find?_eq_some hfind
  have hid0 : lens0.id = rs.id := by
    have := List.find?_some hfind
    simpa using this
  obtain ⟨nw, nh, hnw, hnh, hEq2⟩ :
      ∃ nw nh : ℚ, nw ≤ env.width - rs.start.x ∧ nh ≤ env.height - rs.start.y ∧
        (handlePointerMove env
          ⟨app, { Stage.idle with resizeState := some rs }, cfg⟩ point).app.lenses =
          app.lenses.map (fun l =>
            if l.id = rs.id then { l with width := nw, height := nh } else l) := by
    by_cases hc : ((app.lenses.find? (fun l => l.id = rs.id)).map
        (fun l => decide (l.shape = LensShape.circle))).getD false = true
    · refine ⟨min (max (clamp (rs.start.width + (point.x - rs.startPoint.x)) 60 (env.width - rs.start.x))
            (clamp (rs.start.height + (point.y - rs.startPoint.y)) 60 (env.height - rs.start.y)))
          (min (env.width - rs.start.x) (env.height - rs.start.y)),
        min (max (clamp (rs.start.width + (point.x - rs.startPoint.x)) 60 (env.width - rs.start.x))
            (clamp (rs.start.height + (point.y - rs.startPoint.y)) 60 (env.height - rs.start.y)))
          (min (env.width - rs.start.x) (env.height - rs.start.y)),
        le_trans (min_le_right _ _) (min_le_left _ _),
        le_trans (min_le_right _ _) (min_le_right _ _), ?_⟩
      simp [handlePointerMove, Stage.idle, onLensUpdate, pushed_lenses, hc]
    · refine ⟨clamp (rs.start.width + (point.x - rs.startPoint.x)) 60 (env.width - rs.start.x),
        clamp (rs.start.height + (point.y - rs.startPoint.y)) 60 (env.height - rs.start.y),
        clamp_le_right _ _ _, clamp_le_right _ _ _, ?_⟩
      simp [handlePointerMove, Stage.idle, onLensUpdate, pushed_lenses, hc]
  intro l' hl' hid
  rw [hEq2] at hl'
  rcases List.mem_map.mp hl' with ⟨l, hl, hEq⟩
  by_cases hc2 : l.id = rs.id
  · have hll0 : l = lens0 := eq_of_mem_of_key_unique huniq hl hmem0 (hc2.trans hid0.symm)
    rw [if_pos hc2] at hEq
    subst hEq
    subst hll0
    refine ⟨hx0, hy0, ?_, ?_⟩
    · simp only
      rw [hsx] at hnw
      linarith
    · simp only
      rw [hsy] at hnh
      linarith
  · rw [if_neg hc2] at hEq
    subst hEq
    exact absurd hid hc2

/-- Sticker resize keeps the resized sticker inside the canvas. -/
theorem stickerResize_inCanvas
    (env : Env) (app : AppState) (cfg : Config) (point : Point)
    (rs : ResizeStart) (st0 : Sticker) (img : ImgDim)
    (huniq : app.stickers.Pairwise (fun a b => a.id ≠ b.id))
    (hfind : app.stickers.find? (fun s => s.id = rs.id) = some st0)
    (himg : env.stickerImage = some img)
    (hsx : rs.start.x = st0.x) (hsy : rs.start.y = st0.y)
    (hx0 : 0 ≤ st0.x) (hy0 : 0 ≤ st0.y)
    (hxW : st0.x ≤ env.width) (hyH : st0.y ≤ env.height) :
    ∀ s' ∈ (handlePointerMove env
        ⟨app, { Stage.idle with stickerResizeState := some rs }, cfg⟩ point).app.stickers,
      s'.id = rs.id →
        0 ≤ s'.x ∧ 0 ≤ s'.y ∧ s'.x + s'.width ≤ env.width ∧ s'.y + s'.height ≤ env.height := by
  have hmem0 : st0 ∈ app.stickers := List.mem_of_find?_eq_some hfind
  have hid0 : st0.id = rs.id := by
    have := List.find?_some hfind
    simpa using this
  intro s' hs' hid
  simp only [handlePointerMove, Stage.idle, himg] at hs'
  rw [dif_neg (by simp), dif_neg (by simp), dif_pos (by simp)] at hs'
  simp only [onStickerUpdate, pushed_stickers, Option.get_some, List.mem_map] at hs'
  rcases hs' with ⟨s, hs, hEq⟩
  by_cases hc : s.id = rs.id
  · have hss0 : s = st0 := eq_of_mem_of_key_unique huniq hs hmem0 (hc.trans hid0.symm)
    rw [if_pos hc] at hEq
    subst hEq
    subst hss0
    refine ⟨hx0, hy0, ?_, ?_⟩
    · exact add_clamp_le _ _ _ _ _ hsx
    · exact add_clamp_le _ _ _ _ _ hsy
  · rw [if_neg hc] at hEq
    subst hEq
    exact absurd hid hc

/-- Sticker drag keeps the dragged sticker inside the canvas. -/
theorem stickerDrag_inCanvas
    (env : Env) (app : AppState) (cfg : Config) (point : Point)
    (sid : String) (off : Offset) (st0 : Sticker)
    (huniq : app.stickers.Pairwise (fun a b => a.id ≠ b.id))
    (hfind : app.stickers.find? (fun s => s.id = sid) = some st0)
    (hw : st0.width ≤ env.width) (hh : st0.height ≤ env.height) :
    ∀ s' ∈ (handlePointerMove env
        ⟨app, { Stage.idle with activeStickerId := some sid, stickerDragOffset := some off }, cfg⟩
        point).app.stickers,
      s'.id = st0.id →
        0 ≤ s'.x ∧ 0 ≤ s'.y ∧ s'.x + s'.width ≤ env.width ∧ s'.y + s'.height ≤ env.height := by
  have hmem0 : st0 ∈ app.stickers := List.mem_of_find?_eq_some hfind
  have hA : (handlePointerMove env
      ⟨app, { Stage.idle with activeStickerId := some sid, stickerDragOffset := some off }, cfg⟩
      point).app.stickers =
      app.stickers.map (fun s =>
        if s.id = st0.id then
          { s with
            x := clamp (point.x - off.dx) 0 (env.width - st0.width)
            y := clamp (point.y - off.dy) 0 (env.height - st0.height) }
        else s) := by
    simp [handlePointerMove, Stage.idle, hfind, onStickerUpdate, pushed_stickers]
  intro s' hs' hid
  rw [hA] at hs'
  rcases List.mem_map.mp hs' with ⟨s, hs, hEq⟩
  by_cases hc : s.id = st0.id
  · have hss0 : s = st0 := eq_of_mem_of_key_unique huniq hs hmem0 hc
    rw [if_pos hc] at hEq
    subst hEq
    subst hss0
    exact ⟨le_clamp_of_le _ _ _ (by linarith), le_clamp_of_le _ _ _ (by linarith),
      clamp_add_le _ _ _, clamp_add_le _ _ _⟩
  · rw [if_neg hc] at hEq
    subst hEq
    exact absurd hid hc

/-- Text drag keeps the dragged text's derived bounding box inside the
canvas. -/
theorem textDrag_inCanvas
    (env : Env) (app : AppState) (cfg : Config) (point : Point)
    (tid : String) (off : Offset) (t0 : TextOverlay)
    (huniq : app.texts.Pairwise (fun a b => a.id ≠ b.id))
    (hfind : app.texts.find? (fun t => t.id = tid) = some t0)
    (hw : (getTextBounds env.measure t0).width ≤ env.width)
    (hh : (getTextBounds env.measure t0).height ≤ env.height) :
    ∀ t' ∈ (handlePointerMove env
        ⟨app, { Stage.idle with activeTextId := some tid, textDragOffset := some off }, cfg⟩
        point).app.texts,
      t'.id = t0.id →
        0 ≤ t'.x ∧ 0 ≤ t'.y ∧
        t'.x + (getTextBounds env.measure t').width ≤ env.width ∧
        t'.y + (getTextBounds env.measure t').height ≤ env.height := by
  have hmem0 : t0 ∈ app.texts := List.mem_of_find?_eq_some hfind
  have hA : (handlePointerMove env
      ⟨app, { Stage.idle with activeTextId := some tid, textDragOffset := some off }, cfg⟩
      point).app.texts =
      app.texts.map (fun t =>
        if t.id = t0.id then
          { t with
            x := clamp (point.x - off.dx) 0 (env.width - (getTextBounds env.measure t0).width)
            y := clamp (point.y - off.dy) 0 (env.height - (getTextBounds env.measure t0).height) }
        else t) := by
    simp [handlePointerMove, Stage.idle, hfind, onTextUpdate, pushed_texts]
  intro t' ht' hid
  rw [hA] at ht'
  rcases List.mem_map.mp ht' with ⟨t, ht, hEq⟩
  by_cases hc : t.id = t0.id
  · have htt0 : t = t0 := eq_of_mem_of_key_unique huniq ht hmem0 hc
    rw [if_pos hc] at hEq
    subst hEq
    subst htt0
    have hbounds : ∀ a b : ℚ, getTextBounds env.measure { t with x := a, y := b } =
        getTextBounds env.measure t := fun a b => rfl
    refine ⟨le_clamp_of_le _ _ _ (by linarith), le_clamp_of_le _ _ _ (by linarith), ?_, ?_⟩
    · rw [hbounds]
      exact clamp_add_le _ _ _
    · rw [hbounds]
      exact clamp_add_le _ _ _
  · rw [if_neg hc] at hEq
    subst hEq
    exact absurd hid hc

/-- C7 (amended): after a lens drag, lens resize, sticker resize, sticker
drag, or text drag, the affected entity satisfies `0 ≤ x`, `0 ≤ y`,
`x + width ≤ canvasWidth`, `y + height ≤ canvasHeight` (texts measured by
their derived bounding box), for every pointer position — provided the
entity fit the canvas before the gesture. Text resize is excluded: it
rescales only the font size and can push the derived box outside. -/
theorem clamp_invariant_after_drag_resize :
    (∀ (env : Env) (app : AppState) (cfg : Config) (point : Point)
        (lid : String) (off : Offset) (lens0 : Lens),
      app.lenses.Pairwise (fun a b => a.id ≠ b.id) →
      app.lenses.find? (fun l => l.id = lid) = some lens0 →
      lens0.width ≤ env.width → lens0.height ≤ env.height →
      ∀ l' ∈ (handlePointerMove env
          ⟨app, { Stage.idle with activeLensId := some lid, dragOffset := some off }, cfg⟩
          point).app.lenses,
        l'.id = lens0.id →
          0 ≤ l'.x ∧ 0 ≤ l'.y ∧ l'.x + l'.width ≤ env.width ∧ l'.y + l'.height ≤ env.height) ∧
    (∀ (env : Env) (app : AppState) (cfg : Config) (point : Point)
        (rs : ResizeStart) (lens0 : Lens),
      app.lenses.Pairwise (fun a b => a.id ≠ b.id) →
      app.lenses.find? (fun l => l.id = rs.id) = some lens0 →
      rs.start.x = lens0.x → rs.start.y = lens0.y →
      0 ≤ lens0.x → 0 ≤ lens0.y → lens0.x ≤ env.width → lens0.y ≤ env.height →
      ∀ l' ∈ (handlePointerMove env
          ⟨app, { Stage.idle with resizeState := some rs }, cfg⟩ point).app.lenses,
        l'.id = rs.id →
          0 ≤ l'.x ∧ 0 ≤ l'.y ∧ l'.x + l'.width ≤ env.width ∧ l'.y + l'.height ≤ env.height) ∧
    (∀ (env : Env) (app : AppState) (cfg : Config) (point : Point)
        (rs : ResizeStart) (st0 : Sticker) (img : ImgDim),
      app.stickers.Pairwise (fun a b => a.id ≠ b.id) →
      app.stickers.find? (fun s => s.id = rs.id) = some st0 →
      env.stickerImage = some img →
      rs.start.x = st0.x → rs.start.y = st0.y →
      0 ≤ st0.x → 0 ≤ st0.y → st0.x ≤ env.width → st0.y ≤ env.height →
      ∀ s' ∈ (handlePointerMove env
          ⟨app, { Stage.idle with stickerResizeState := some rs }, cfg⟩ point).app.stickers,
        s'.id = rs.id →
          0 ≤ s'.x ∧ 0 ≤ s'.y ∧ s'.x + s'.width ≤ env.width ∧ s'.y + s'.height ≤ env.height) ∧
    (∀ (env : Env) (app : AppState) (cfg : Config) (point : Point)
        (sid : String) (off : Offset) (st0 : Sticker),
      app.stickers.Pairwise (fun a b => a.id ≠ b.id) →
      app.stickers.find? (fun s => s.id = sid) = some st0 →
      st0.width ≤ env.width → st0.height ≤ env.height →
      ∀ s' ∈ (handlePointerMove env
          ⟨app, { Stage.idle with activeStickerId := some sid, stickerDragOffset := some off }, cfg⟩
          point).app.stickers,
        s'.id = st0.id →
          0 ≤ s'.x ∧ 0 ≤ s'.y ∧ s'.x + s'.width ≤ env.width ∧ s'.y + s'.height ≤ env.height) ∧
    (∀ (env : Env) (app : AppState) (cfg : Config) (point : Point)
        (tid : String) (off : Offset) (t0 : TextOverlay),
      app.texts.Pairwise (fun a b => a.id ≠ b.id) →
      app.texts.find? (fun t => t.id = tid) = some t0 →
      (getTextBounds env.measure t0).width ≤ env.width →
      (getTextBounds env.measure t0).height ≤ env.height →
      ∀ t' ∈ (handlePointerMove env
          ⟨app, { Stage.idle with activeTextId := some tid, textDragOffset := some off }, cfg⟩
          point).app.texts,
        t'.id = t0.id →
          0 ≤ t'.x ∧ 0 ≤ t'.y ∧
          t'.x + (getTextBounds env.measure t').width ≤ env.width ∧
          t'.y + (getTextBounds env.measure t').height ≤ env.height) :=
  ⟨lensDrag_inCanvas, lensResize_inCanvas, stickerResize_inCanvas,
    stickerDrag_inCanvas, textDrag_inCanvas⟩

/-- Witness for the clamp-invariant theorem: dragging the 100x100 lens far
off-canvas keeps it inside the 920x620 canvas. -/
theorem clamp_invariant_witness :
    (AppState.mk [c1Lens] [] [] [] false none).lenses.Pairwise (fun a b => a.id ≠ b.id) ∧
    (AppState.mk [c1Lens] [] [] [] false none).lenses.find? (fun l => l.id = "l1") = some c1Lens ∧
    c1Lens.width ≤ exEnv.width ∧ c1Lens.height ≤ exEnv.height ∧
    ∀ l' ∈ (handlePointerMove exEnv
        ⟨AppState.mk [c1Lens] [] [] [] false none,
          { Stage.idle with activeLensId := some "l1", dragOffset := some (Offset.mk 0 0) },
          exCfg⟩ (Point.mk 9999 9999)).app.lenses,
      l'.id = c1Lens.id →
        0 ≤ l'.x ∧ 0 ≤ l'.y ∧ l'.x + l'.width ≤ exEnv.width ∧ l'.y + l'.height ≤ exEnv.height :=
  ⟨by simp, rfl, by norm_num [c1Lens, exEnv], by norm_num [c1Lens, exEnv],
    clamp_invariant_after_drag_resize.1 exEnv (AppState.mk [c1Lens] [] [] [] false none) exCfg
      (Point.mk 9999 9999) "l1" (Offset.mk 0 0) c1Lens (by simp) rfl
      (by norm_num [c1Lens, exEnv]) (by norm_num [c1Lens, exEnv])⟩

/-- A concrete one-line text overlay near the bottom of the canvas. -/
def c7Text : TextOverlay :=
  { id := "t1", x := 0, y := 500, text := "hello", color := "#f5f5f5",
    size := 28, font := "Terminus" }

/-- The stage mid-way through a text resize gesture on `t1` (start geometry
captured from the text's derived bounds at pointer-down). -/
def c7RS : ResizeStart :=
  ResizeStart.mk "t1" (Rect.mk 0 500 36 (168 / 5)) (Point.mk 30 520)

def c7Stage : Stage :=
  { Stage.idle with textResizeState := some c7RS }

/-- C7 counterexample: a text resize only rescales the font size without
re-clamping, so dragging far outside the canvas drives the size to the
200 cap and the derived bounding box (height 240 at y = 500) leaves the
620-high canvas. -/
theorem text_resize_escapes_canvas_counterexample :
    (handlePointerMove exEnv
        ⟨AppState.mk [] [] [c7Text] [] false none, c7Stage, exCfg⟩
        (Point.mk 2000 2000)).app.texts = [{ c7Text with size := 200 }] ∧
    ¬ (({ c7Text with size := 200 } : TextOverlay).y +
        (getTextBounds fallbackMeasure { c7Text with size := 200 }).height ≤ exEnv.height) := by
  have hsplit : splitLines "hello" = ["hello"] := rfl
  have hlen : ("hello".length : ℕ) = 5 := rfl
  have hif : (if "hello" = "" then "Text" else "hello") = "hello" := rfl
  constructor
  · norm_num [handlePointerMove, c7Stage, c7RS, Stage.idle, onTextUpdate, AppState.pushed,
      pushHistory, AppState.snap, c7Text, hsplit, hlen, min_def, max_def]
  · norm_num [getTextBounds, estimateTextBounds, fallbackMeasure, c7Text, hif, hsplit, hlen,
      exEnv, min_def, max_def]

/-- C8, Scenario B: in magnify mode, a click at (50,50) on a 900x600 canvas
with lens size 200 creates a lens with `sourceX = sourceY = 50`,
`width = height = 200`, display top-left `(80, 0)` — the default offset
center `(50 + 200*0.65, 50 - 200*0.25) = (180, 0)` clamped into
`[0, canvas - 200]` — and `sourceImageX/Y` holding the anchor converted to
image-pixel coordinates. -/
theorem scenarioB_magnify_click
    (img : ImgDim) (stickerImg : Option ImgDim) (shape : LensShape)
    (blurAmount magnification : ℚ) (tv tc : String) (ts : ℚ) (tf : String)
    (newId : String) (now : ℚ) :
    (handlePointerUp (Env.mk 900 600 (some img) stickerImg fallbackMeasure)
      (handlePointerDown (Env.mk 900 600 (some img) stickerImg fallbackMeasure)
        (World.mk (AppState.mk [] [] [] [] false none) Stage.idle
          (Config.mk Mode.magnify shape 200 blurAmount magnification tv tc ts tf
            BackgroundMode.image))
        0 (Point.mk 50 50))
      newId now).app.lenses =
    [Lens.mk newId 80 0 200 200 50 50
      (toImagePoint (Env.mk 900 600 (some img) stickerImg fallbackMeasure)
        (Config.mk Mode.magnify shape 200 blurAmount magnification tv tc ts tf
          BackgroundMode.image)
        (Point.mk 50 50)).x
      (toImagePoint (Env.mk 900 600 (some img) stickerImg fallbackMeasure)
        (Config.mk Mode.magnify shape 200 blurAmount magnification tv tc ts tf
          BackgroundMode.image)
        (Point.mk 50 50)).y
      Mode.magnify shape blurAmount magnification now] := by
  have h1 : ¬ (Mode.magnify = Mode.text) := by decide
  have h2 : ¬ (Mode.magnify = Mode.sticker) := by decide
  norm_num [handlePointerDown, handlePointerUp, handleLensAdd, AppState.pushed,
    pushHistory, AppState.snap, Stage.idle, effectiveImage, h1, h2, clamp, min_def, max_def]

/-- A sticker-mode configuration with no special values. -/
def c4Cfg : Config :=
  { exCfg with mode := Mode.sticker }

/-- C4 counterexample: with an image loaded, mode `sticker`, and no sticker
bitmap, a click gesture on empty canvas is NOT a no-op — the pointer-up
falls through to generic lens creation and adds a Lens with mode
`sticker`. -/
theorem sticker_mode_gesture_adds_lens_counterexample :
    (handlePointerUp (Env.mk 920 620 (some (ImgDim.mk 1840 1240)) none fallbackMeasure)
      (handlePointerDown (Env.mk 920 620 (some (ImgDim.mk 1840 1240)) none fallbackMeasure)
        (World.mk (AppState.mk [] [] [] [] false none) Stage.idle c4Cfg)
        0 (Point.mk 100 100))
      "L" 0).app.lenses =
    [Lens.mk "L" 0 0 320 320 160 160 320 320 Mode.sticker LensShape.circle 12 2 0] := by
  have h1 : ¬ (Mode.sticker = Mode.text) := by decide
  have h2 : ¬ (Mode.sticker = Mode.magnify) := by decide
  norm_num [handlePointerDown, handlePointerUp, handleLensAdd, AppState.pushed,
    pushHistory, AppState.snap, Stage.idle, effectiveImage, toImagePoint, computeDraw,
    c4Cfg, exCfg, h1, h2, clamp, min_def, max_def]

/-- C4 (amended): in sticker mode with no sticker bitmap, a pointer gesture
adds no sticker — but when a base image is displayed it falls through to
lens creation and adds exactly one lens with mode `sticker`; only when no
image is displayed does pointer-down bail out, making the gesture a full
no-op on the store. -/
theorem sticker_mode_without_bitmap :
    (∀ (W H : ℚ) (img : ImgDim) (measure : String → String → ℚ)
        (shape : LensShape) (sz blur mag : ℚ) (tv tc : String) (ts : ℚ) (tf : String)
        (p : Point) (newId : String) (now : ℚ),
      (handlePointerUp (Env.mk W H (some img) none measure)
        (handlePointerDown (Env.mk W H (some img) none measure)
          (World.mk (AppState.mk [] [] [] [] false none) Stage.idle
            (Config.mk Mode.sticker shape sz blur mag tv tc ts tf BackgroundMode.image))
          0 p)
        newId now).app.stickers = [] ∧
      (handlePointerUp (Env.mk W H (some img) none measure)
        (handlePointerDown (Env.mk W H (some img) none measure)
          (World.mk (AppState.mk [] [] [] [] false none) Stage.idle
            (Config.mk Mode.sticker shape sz blur mag tv tc ts tf BackgroundMode.image))
          0 p)
        newId now).app.lenses.map Lens.mode = [Mode.sticker]) ∧
    (∀ (W H : ℚ) (measure : String → String → ℚ)
        (shape : LensShape) (sz blur mag : ℚ) (tv tc : String) (ts : ℚ) (tf : String)
        (hist : List Snapshot) (u : Bool) (src : Option String)
        (p : Point) (newId : String) (now : ℚ),
      (handlePointerUp (Env.mk W H none none measure)
        (handlePointerDown (Env.mk W H none none measure)
          (World.mk (AppState.mk [] [] [] hist u src) Stage.idle
            (Config.mk Mode.sticker shape sz blur mag tv tc ts tf BackgroundMode.image))
          0 p)
        newId now).app = AppState.mk [] [] [] hist u src) := by
  have h1 : ¬ (Mode.sticker = Mode.text) := by decide
  have h2 : ¬ (Mode.sticker = Mode.magnify) := by decide
  constructor
  · intro W H img measure shape sz blur mag tv tc ts tf p newId now
    refine ⟨?_, ?_⟩
    · simp [handlePointerDown, handlePointerUp, handleLensAdd, AppState.pushed,
        pushHistory, AppState.snap, Stage.idle, effectiveImage, h1, h2]
    · simp [handlePointerDown, handlePointerUp, handleLensAdd, AppState.pushed,
        pushHistory, AppState.snap, Stage.idle, effectiveImage, h1, h2]
  · intro W H measure shape sz blur mag tv tc ts tf hist u src p newId now
    simp [handlePointerDown, handlePointerUp, Stage.idle, clearTextSelection,
      effectiveImage, h1, h2]

/-- C2 (amended): sticker creation and sticker resize produce dimensions in
the bitmap's natural ratio whenever neither the 40-unit minimum nor the
canvas-bounds clamp binds; where a clamp binds one dimension the ratio can
deviate (see the counterexample). -/
theorem sticker_aspect_preserved :
    (∀ (W H : ℚ) (img : ImgDim) (measure : String → String → ℚ)
        (shape : LensShape) (sz blur mag : ℚ) (tv tc : String) (ts : ℚ) (tf : String)
        (p0 p1 : Point) (newId : String) (now : ℚ) (w1 h1 w2 h2 : ℚ),
      0 < img.naturalWidth → 0 < img.naturalHeight →
      w1 = (if |p1.x - p0.x| < 8 ∧ |p1.y - p0.y| < 8 then sz else |p1.x - p0.x|) →
      h1 = (if |p1.x - p0.x| < 8 ∧ |p1.y - p0.y| < 8 then sz else |p1.y - p0.y|) →
      w2 = (if w1 / h1 > img.naturalWidth / img.naturalHeight
            then h1 * (img.naturalWidth / img.naturalHeight) else w1) →
      h2 = (if w1 / h1 > img.naturalWidth / img.naturalHeight
            then h1 else w1 / (img.naturalWidth / img.naturalHeight)) →
      0 < h1 → 40 ≤ w2 → w2 ≤ W → 40 ≤ h2 → h2 ≤ H →
      (handlePointerUp (Env.mk W H none (some img) measure)
        (World.mk (AppState.mk [] [] [] [] false none)
          { Stage.idle with dragStart := some p0, dragCurrent := some p1 }
          (Config.mk Mode.sticker shape sz blur mag tv tc ts tf BackgroundMode.image))
        newId now).app.stickers.map (fun s => s.width / s.height) =
        [img.naturalWidth / img.naturalHeight]) ∧
    (∀ (env : Env) (app : AppState) (cfg : Config) (point : Point)
        (rs : ResizeStart) (img : ImgDim) (nw1 nh1 : ℚ),
      env.stickerImage = some img →
      0 < img.naturalWidth → 0 < img.naturalHeight →
      nh1 = (if (rs.start.width + (point.x - rs.startPoint.x)) /
              (img.naturalWidth / img.naturalHeight) <
              rs.start.height + (point.y - rs.startPoint.y)
            then rs.start.height + (point.y - rs.startPoint.y)
            else (rs.start.width + (point.x - rs.startPoint.x)) /
              (img.naturalWidth / img.naturalHeight)) →
      nw1 = (if (rs.start.width + (point.x - rs.startPoint.x)) /
              (img.naturalWidth / img.naturalHeight) <
              rs.start.height + (point.y - rs.startPoint.y)
            then nh1 * (img.naturalWidth / img.naturalHeight)
            else rs.start.width + (point.x - rs.startPoint.x)) →
      40 ≤ nw1 → nw1 ≤ env.width - rs.start.x → 40 ≤ nh1 → nh1 ≤ env.height - rs.start.y →
      ∀ s' ∈ (handlePointerMove env
          ⟨app, { Stage.idle with stickerResizeState := some rs }, cfg⟩ point).app.stickers,
        s'.id = rs.id →
          s'.width / s'.height = img.naturalWidth / img.naturalHeight) := by
  constructor
  · intro W H img measure shape sz blur mag tv tc ts tf p0 p1 newId now w1 h1 w2 h2
      hW hH hw1 hh1 hw2 hh2 hpos h40w hWw h40h hHh
    have hiw : img.naturalWidth ≠ 0 := ne_of_gt hW
    have hih : img.naturalHeight ≠ 0 := ne_of_gt hH
    have hR : 0 < img.naturalWidth / img.naturalHeight := div_pos hW hH
    have h3 : ¬ (Mode.sticker = Mode.text) := by decide
    have hstep : (handlePointerUp (Env.mk W H none (some img) measure)
        (World.mk (AppState.mk [] [] [] [] false none)
          { Stage.idle with dragStart := some p0, dragCurrent := some p1 }
          (Config.mk Mode.sticker shape sz blur mag tv tc ts tf BackgroundMode.image))
        newId now).app.stickers = [Sticker.mk newId
          (clamp (if |p1.x - p0.x| < 8 ∧ |p1.y - p0.y| < 8
                  then p0.x - w2 / 2 else min p0.x p1.x) 0 (W - clamp w2 40 W))
          (clamp (if |p1.x - p0.x| < 8 ∧ |p1.y - p0.y| < 8
                  then p0.y - h2 / 2 else min p0.y p1.y) 0 (H - clamp h2 40 H))
          (clamp w2 40 W) (clamp h2 40 H) img shape] := by
      subst hw1
      subst hh1
      subst hw2
      subst hh2
      simp [handlePointerUp, handleStickerAdd, AppState.pushed, pushHistory,
        AppState.snap, Stage.idle, hiw, hih, h3]
    rw [hstep]
    dsimp only [List.map_cons, List.map_nil]
    simp only [List.cons.injEq, and_true]
    rw [clamp_eq_self w2 40 W h40w hWw, clamp_eq_self h2 40 H h40h hHh]
    by_cases hgt : w1 / h1 > img.naturalWidth / img.naturalHeight
    · rw [hw2, hh2, if_pos hgt, if_pos hgt]
      rw [mul_div_cancel_left₀ _ (ne_of_gt hpos)]
    · have hw1pos : 0 < w1 := by
        by_contra hle
        push_neg at hle
        have : w1 / (img.naturalWidth / img.naturalHeight) ≤ 0 :=
          div_nonpos_of_nonpos_of_nonneg hle (le_of_lt hR)
        rw [hh2, if_neg hgt] at h40h
        linarith
      rw [hw2, hh2, if_neg hgt, if_neg hgt]
      rw [div_div_eq_mul_div, mul_div_cancel_left₀ _ (ne_of_gt hw1pos)]
  · intro env app cfg point rs img nw1 nh1 himg hW hH hnh1 hnw1 h40w hWw h40h hHh
    have hiw : img.naturalWidth ≠ 0 := ne_of_gt hW
    have hih : img.naturalHeight ≠ 0 := ne_of_gt hH
    have hR : 0 < img.naturalWidth / img.naturalHeight := div_pos hW hH
    have hstep : (handlePointerMove env
        ⟨app, { Stage.idle with stickerResizeState := some rs }, cfg⟩ point).app.stickers =
        app.stickers.map (fun s =>
          if s.id = rs.id then
            { s with
              width := clamp nw1 40 (env.width - rs.start.x)
              height := clamp nh1 40 (env.height - rs.start.y) }
          else s) := by
      subst hnh1
      subst hnw1
      simp [handlePointerMove, Stage.idle, himg, onStickerUpdate, pushed_stickers,
        hiw, hih]
    intro s' hs' hid
    rw [hstep] at hs'
    rcases List.mem_map.mp hs' with ⟨s, _, hEq⟩
    by_cases hc : s.id = rs.id
    · rw [if_pos hc] at hEq
      subst hEq
      show clamp nw1 40 (env.width - rs.start.x) / clamp nh1 40 (env.height - rs.start.y) =
        img.naturalWidth / img.naturalHeight
      rw [clamp_eq_self nw1 40 _ h40w hWw, clamp_eq_self nh1 40 _ h40h hHh]
      by_cases hlt : (rs.start.width + (point.x - rs.startPoint.x)) /
          (img.naturalWidth / img.naturalHeight) <
          rs.start.height + (point.y - rs.startPoint.y)
      · have hnh1pos : 0 < nh1 := by linarith
        rw [hnw1, if_pos hlt]
        rw [mul_div_cancel_left₀ _ (ne_of_gt hnh1pos)]
      · have hnw0pos : 0 < rs.start.width + (point.x - rs.startPoint.x) := by
          by_contra hle
          push_neg at hle
          have : (rs.start.width + (point.x - rs.startPoint.x)) /
              (img.naturalWidth / img.naturalHeight) ≤ 0 :=
            div_nonpos_of_nonpos_of_nonneg hle (le_of_lt hR)
          rw [hnh1, if_neg hlt] at h40h
          linarith
        rw [hnw1, hnh1, if_neg hlt, if_neg hlt]
        rw [div_div_eq_mul_div, mul_div_cancel_left₀ _ (ne_of_gt hnw0pos)]
    · rw [if_neg hc] at hEq
      subst hEq
      exact absurd hid hc

/-- Witness for the aspect theorem: a 150x150 drag with a 400x200 bitmap
creates a 150x75 sticker, ratio exactly 2. -/
theorem sticker_aspect_preserved_witness :
    (0 : ℚ) < 400 ∧ (0 : ℚ) < 200 ∧
    (handlePointerUp (Env.mk 920 620 none (some (ImgDim.mk 400 200)) fallbackMeasure)
      (World.mk (AppState.mk [] [] [] [] false none)
        { Stage.idle with dragStart := some (Point.mk 300 300), dragCurrent := some (Point.mk 450 450) }
        (Config.mk Mode.sticker LensShape.rounded 320 12 2 "Sample text" "#f5f5f5" 28 "Terminus"
          BackgroundMode.image))
      "S" 0).app.stickers.map (fun s => s.width / s.height) =
      [(ImgDim.mk 400 200).naturalWidth / (ImgDim.mk 400 200).naturalHeight] :=
  ⟨by norm_num, by norm_num,
    sticker_aspect_preserved.1 920 620 (ImgDim.mk 400 200) fallbackMeasure
      LensShape.rounded 320 12 2 "Sample text" "#f5f5f5" 28 "Terminus"
      (Point.mk 300 300) (Point.mk 450 450) "S" 0 150 150 150 75
      (by norm_num) (by norm_num) (by norm_num) (by norm_num) (by norm_num)
      (by norm_num) (by norm_num) (by norm_num) (by norm_num) (by norm_num)
      (by norm_num)⟩

/-- C2 counterexample: when the 40-unit minimum binds one dimension the
ratio is not preserved — a click with lens size 320 and a 400x40 bitmap
(ratio 10) yields a 320x40 sticker, ratio 8. -/
theorem sticker_aspect_clamp_counterexample :
    (handlePointerUp (Env.mk 920 620 (some (ImgDim.mk 1840 1240)) (some (ImgDim.mk 400 40))
        fallbackMeasure)
      (handlePointerDown (Env.mk 920 620 (some (ImgDim.mk 1840 1240)) (some (ImgDim.mk 400 40))
          fallbackMeasure)
        (World.mk (AppState.mk [] [] [] [] false none) Stage.idle
          (Config.mk Mode.sticker LensShape.rounded 320 12 2 "Sample text" "#f5f5f5" 28 "Terminus"
            BackgroundMode.image))
        0 (Point.mk 100 100))
      "S" 0).app.stickers =
    [Sticker.mk "S" 0 84 320 40 (ImgDim.mk 400 40) LensShape.rounded] ∧
    (320 : ℚ) / 40 ≠ (400 : ℚ) / 40 := by
  have h3 : ¬ (Mode.sticker = Mode.text) := by decide
  constructor
  · norm_num [handlePointerDown, handlePointerUp, handleStickerAdd, AppState.pushed,
      pushHistory, AppState.snap, Stage.idle, effectiveImage, h3, clamp, min_def, max_def]
  · norm_num

/-- C9: the compositor's paint sequence is always ordered
background/image → stickers → texts → magnify connectors → lens content →
preview; stickers appear only when an image is drawn, every sticker/magnify
connector/lens content op is present when an image is drawn, and the
preview (when any) is painted last. -/
theorem renderScene_layer_order
    (image : Option ImgDim) (lenses : List Lens) (stickers : List Sticker)
    (texts : List TextOverlay) (preview : Option LensPreview) (width height : ℚ)
    (bg : String) (sp : Bool) :
    List.Pairwise (fun a b => layerTag a ≤ layerTag b)
      (renderScene image lenses stickers texts preview width height bg sp) ∧
    (image = none → ∀ s : Sticker,
      PaintOp.stickerDraw s ∉ renderScene image lenses stickers texts preview width height bg sp) ∧
    (∀ img : ImgDim, image = some img → ∀ s ∈ stickers,
      PaintOp.stickerDraw s ∈ renderScene image lenses stickers texts preview width height bg sp) ∧
    (∀ img : ImgDim, image = some img → ∀ l ∈ lenses, l.mode = Mode.magnify →
      PaintOp.connector l (lensSourceDisplay l (computeDraw img width height)) (lensCenter l) ∈
        renderScene image lenses stickers texts preview width height bg sp) ∧
    (∀ img : ImgDim, image = some img → ∀ l ∈ lenses, ∃ r : LensRender,
      PaintOp.lensContent l r ∈ renderScene image lenses stickers texts preview width height bg sp) ∧
    (∀ p : LensPreview, preview = some p →
      (renderScene image lenses stickers texts preview width height bg sp).getLast? =
        some (PaintOp.previewDraw p)) := by
  refine ⟨?_, ?_, ?_, ?_, ?_, ?_⟩
  · rcases image with _ | img <;> rcases preview with _ | p <;>
      simp only [renderScene, Option.map_some', Option.map_none']
    · exact pairwise_tag_six _ _ _ _ _ _
        (by simp [layerTag]) (by simp)
        (fun o ho => by rcases List.mem_map.mp ho with ⟨t, _, rfl⟩; rfl)
        (fun o ho => by
          rcases List.mem_filterMap.mp ho with ⟨l, _, hEq⟩
          exact Option.noConfusion hEq)
        (tag_of_lensOps none none lenses) (by simp)
    · exact pairwise_tag_six _ _ _ _ _ _
        (by simp [layerTag]) (by simp)
        (fun o ho => by rcases List.mem_map.mp ho with ⟨t, _, rfl⟩; rfl)
        (fun o ho => by
          rcases List.mem_filterMap.mp ho with ⟨l, _, hEq⟩
          exact Option.noConfusion hEq)
        (tag_of_lensOps none none lenses) (by simp [layerTag])
    · exact pairwise_tag_six _ _ _ _ _ _
        (by simp [layerTag])
        (fun o ho => by rcases List.mem_map.mp ho with ⟨s, _, rfl⟩; rfl)
        (fun o ho => by rcases List.mem_map.mp ho with ⟨t, _, rfl⟩; rfl)
        (fun o ho => by
          rcases List.mem_filterMap.mp ho with ⟨l, _, hEq⟩
          cases hEq
          rfl)
        (tag_of_lensOps (some img) (some (computeDraw img width height)) lenses)
        (by simp)
    · exact pairwise_tag_six _ _ _ _ _ _
        (by simp [layerTag])
        (fun o ho => by rcases List.mem_map.mp ho with ⟨s, _, rfl⟩; rfl)
        (fun o ho => by rcases List.mem_map.mp ho with ⟨t, _, rfl⟩; rfl)
        (fun o ho => by
          rcases List.mem_filterMap.mp ho with ⟨l, _, hEq⟩
          cases hEq
          rfl)
        (tag_of_lensOps (some img) (some (computeDraw img width height)) lenses)
        (by simp [layerTag])
  · rintro rfl s
    simp [renderScene, drawLens]
    rcases preview with _ | p <;> simp
  · rintro img rfl s hs
    simp only [renderScene, Option.map_some']
    exact List.mem_append_left _ (List.mem_append_left _ (List.mem_append_left _
      (List.mem_append_left _ (List.mem_append_right _ (List.mem_map_of_mem _ hs)))))
  · rintro img rfl l hl hm
    simp only [renderScene, Option.map_some']
    exact List.mem_append_left _ (List.mem_append_left _ (List.mem_append_right _
      (List.mem_filterMap.mpr ⟨l, List.mem_filter.mpr ⟨hl, by simp [hm]⟩, rfl⟩)))
  · rintro img rfl l hl
    refine ⟨if l.mode = Mode.blur then LensRender.blurDraw l.blur img (computeDraw img width height)
      else LensRender.magnifyDraw (lensCenter l) (clamp l.magnification 1 4)
        (lensSourceDisplay l (computeDraw img width height)) img (computeDraw img width height), ?_⟩
    simp only [renderScene, Option.map_some']
    refine List.mem_append_left _ (List.mem_append_right _ (List.mem_flatMap.mpr ⟨l, hl, ?_⟩))
    unfold drawLens
    exact List.mem_cons_self _ _
  · rintro p rfl
    simp only [renderScene]
    exact List.getLast?_concat _

/-- A concrete magnify lens for compositor evaluation. -/
def c9Lens : Lens :=
  { id := "m", x := 10, y := 10, width := 100, height := 100,
    sourceX := 30, sourceY := 30, sourceImageX := 60, sourceImageY := 60,
    mode := Mode.magnify, shape := LensShape.circle, blur := 12,
    magnification := 2, createdAt := 0 }

/-- Witness for the layer-order theorem at a concrete scene. -/
theorem renderScene_layer_order_witness :
    List.Pairwise (fun a b => layerTag a ≤ layerTag b)
      (renderScene (some (ImgDim.mk 800 600)) [c9Lens] [c1Sticker] [c7Text]
        (some (LensPreview.mk 1 2 3 4 LensShape.rounded)) 920 620 "#000000" true) ∧
    PaintOp.stickerDraw c1Sticker ∈
      renderScene (some (ImgDim.mk 800 600)) [c9Lens] [c1Sticker] [c7Text]
        (some (LensPreview.mk 1 2 3 4 LensShape.rounded)) 920 620 "#000000" true ∧
    PaintOp.connector c9Lens (lensSourceDisplay c9Lens (computeDraw (ImgDim.mk 800 600) 920 620))
        (lensCenter c9Lens) ∈
      renderScene (some (ImgDim.mk 800 600)) [c9Lens] [c1Sticker] [c7Text]
        (some (LensPreview.mk 1 2 3 4 LensShape.rounded)) 920 620 "#000000" true ∧
    (renderScene (some (ImgDim.mk 800 600)) [c9Lens] [c1Sticker] [c7Text]
        (some (LensPreview.mk 1 2 3 4 LensShape.rounded)) 920 620 "#000000" true).getLast? =
      some (PaintOp.previewDraw (LensPreview.mk 1 2 3 4 LensShape.rounded)) := by
  obtain ⟨h1, _, h3, h4, _, h6⟩ := renderScene_layer_order (some (ImgDim.mk 800 600))
    [c9Lens] [c1Sticker] [c7Text] (some (LensPreview.mk 1 2 3 4 LensShape.rounded))
    920 620 "#000000" true
  exact ⟨h1, h3 _ rfl _ (by simp), h4 _ rfl _ (by simp) rfl, h6 _ rfl⟩

end PixelBlur
